import Mathlib

/-!
Verification of the retirement-planner projection-and-taxation core.

Each Python module of the backend is embedded as Lean definitions over ℚ
(Python floats become exact rationals, so every arithmetic identity proved
here is the identity the source code computes up to floating-point
rounding).  Month keys, which the source keeps as zero-padded strings
YYYY-MM compared either lexicographically or after an integer split, are
embedded as pairs of integers: on the validated format the two orders
coincide.
-/

/-- Year-month key, source representation is the string YYYY-MM
(engine/timeline.py).  Comparisons in the source split the string into the
integer pair (year, month). -/
structure Ym where
  year : ℤ
  month : ℤ
deriving DecidableEq, Repr

/-- month_is_before from engine/timeline.py: (y1, m1) < (y2, m2)
lexicographically. -/
def month_is_before (a b : Ym) : Bool :=
  if a.year < b.year then true
  else if a.year > b.year then false
  else a.month < b.month

/-- month_is_after from engine/timeline.py: (y1, m1) > (y2, m2)
lexicographically. -/
def month_is_after (a b : Ym) : Bool :=
  if a.year > b.year then true
  else if a.year < b.year then false
  else a.month > b.month

/-- Ordering used where the source compares YYYY-MM strings directly
(budget/inflation.py survivor check): on the validated zero-padded format
string order equals the pair order. -/
def ym_le (a b : Ym) : Bool :=
  if a.year < b.year then true
  else if a.year > b.year then false
  else a.month ≤ b.month

/-- FilingStatus enum from models/budget.py. -/
inductive FilingStatus where
  | single
  | married_filing_jointly
  | married_filing_separately
  | head_of_household
deriving DecidableEq, Repr

/-- String value of a FilingStatus, as stored in MonthlyProjection
(the source uses a str-valued enum). -/
def FilingStatus.value : FilingStatus → String
  | .single => "single"
  | .married_filing_jointly => "married_filing_jointly"
  | .married_filing_separately => "married_filing_separately"
  | .head_of_household => "head_of_household"

/-- SSA_THRESHOLDS from tax/social_security.py: (base, max) per filing
status.  The dict in the source lists all four statuses, so the .get
fallback to SINGLE is dead code and the table is total. -/
def SSA_THRESHOLDS : FilingStatus → ℚ × ℚ
  | .single => (25000, 34000)
  | .married_filing_jointly => (32000, 44000)
  | .married_filing_separately => (0, 0)
  | .head_of_household => (25000, 34000)

/-- calculate_provisional_income from tax/social_security.py. -/
def calculate_provisional_income (ssa_income other_ordinary_income tax_exempt_interest : ℚ) : ℚ :=
  other_ordinary_income + tax_exempt_interest + (0.5 * ssa_income)

/-- calculate_taxable_ssa from tax/social_security.py: three-tier
provisional-income method with 50% and 85% caps. -/
def calculate_taxable_ssa (ssa_income other_ordinary_income : ℚ)
    (filing_status : FilingStatus) (tax_exempt_interest : ℚ) : ℚ :=
  if ssa_income ≤ 0 then 0
  else
    let base_threshold := (SSA_THRESHOLDS filing_status).1
    let max_threshold := (SSA_THRESHOLDS filing_status).2
    let provisional_income :=
      calculate_provisional_income ssa_income other_ordinary_income tax_exempt_interest
    if provisional_income ≤ base_threshold then 0
    else if provisional_income ≤ max_threshold then
      min (0.5 * (provisional_income - base_threshold)) (0.5 * ssa_income)
    else
      min (0.5 * (max_threshold - base_threshold)
            + 0.85 * (provisional_income - max_threshold))
          (0.85 * ssa_income)

/-- STANDARD_DEDUCTION_2024 from tax/federal.py. -/
def STANDARD_DEDUCTION_2024 : FilingStatus → ℚ
  | .single => 14600
  | .married_filing_jointly => 29200
  | .married_filing_separately => 14600
  | .head_of_household => 21900

/-- get_standard_deduction from tax/federal.py: the override wins when
present, otherwise the 2024 table (its .get fallback to SINGLE is dead
because the table is total). -/
def get_standard_deduction (filing_status : FilingStatus) (override : Option ℚ) : ℚ :=
  match override with
  | some o => o
  | none => STANDARD_DEDUCTION_2024 filing_status

/-- calculate_agi from tax/federal.py. -/
def calculate_agi (ordinary_income taxable_ssa_income capital_gains adjustments : ℚ) : ℚ :=
  ordinary_income + taxable_ssa_income + capital_gains - adjustments

/-- calculate_taxable_income from tax/federal.py: AGI minus the
deduction, floored at zero. -/
def calculate_taxable_income (agi : ℚ) (filing_status : FilingStatus)
    (standard_deduction_override : Option ℚ) : ℚ :=
  max 0 (agi - get_standard_deduction filing_status standard_deduction_override)

/-- FEDERAL_TAX_BRACKETS_2024 from tax/federal.py: (upper_limit, rate)
pairs in ascending order; the source marks the last upper limit as
float inf, embedded here as none. -/
def FEDERAL_TAX_BRACKETS_2024 : FilingStatus → List (Option ℚ × ℚ)
  | .single =>
      [(some 11600, 0.10), (some 47150, 0.12), (some 100525, 0.22),
       (some 191950, 0.24), (some 243725, 0.32), (some 609350, 0.35),
       (none, 0.37)]
  | .married_filing_jointly =>
      [(some 23200, 0.10), (some 94300, 0.12), (some 201050, 0.22),
       (some 383900, 0.24), (some 487450, 0.32), (some 731200, 0.35),
       (none, 0.37)]
  | .married_filing_separately =>
      [(some 11600, 0.10), (some 47150, 0.12), (some 100525, 0.22),
       (some 191950, 0.24), (some 243725, 0.32), (some 365600, 0.35),
       (none, 0.37)]
  | .head_of_household =>
      [(some 16550, 0.10), (some 63100, 0.12), (some 100500, 0.22),
       (some 191950, 0.24), (some 243700, 0.32), (some 609350, 0.35),
       (none, 0.37)]

/-- Loop body of calculate_federal_tax from tax/federal.py: walks the
brackets carrying previous_limit, breaking once taxable income is at or
below it.  A none upper limit is the float-inf top bracket: the full
remainder is taxed and, previous_limit having become infinite, every
later iteration would break, so the recursion stops there. -/
def bracket_walk (taxable_income : ℚ) : ℚ → List (Option ℚ × ℚ) → ℚ
  | _, [] => 0
  | previous_limit, (upper_limit, rate) :: rest =>
      if taxable_income ≤ previous_limit then 0
      else
        match upper_limit with
        | some u =>
            (if taxable_income ≤ u then taxable_income - previous_limit
             else u - previous_limit) * rate
              + bracket_walk taxable_income u rest
        | none => (taxable_income - previous_limit) * rate

/-- calculate_federal_tax from tax/federal.py. -/
def calculate_federal_tax (taxable_income : ℚ) (filing_status : FilingStatus) : ℚ :=
  if taxable_income ≤ 0 then 0
  else bracket_walk taxable_income 0 (FEDERAL_TAX_BRACKETS_2024 filing_status)

/-- Modelled from the spec wording of C3: the sum, over the brackets in
ascending order, of the marginal rate times the portion of taxable income
lying in the bracket (clamped between the bracket bounds).  For an
unbounded top bracket the portion is everything above its lower bound and
later brackets hold no income. -/
def bracket_portion_sum (taxable_income : ℚ) : ℚ → List (Option ℚ × ℚ) → ℚ
  | _, [] => 0
  | lower, (some u, rate) :: rest =>
      max 0 (min taxable_income u - lower) * rate
        + bracket_portion_sum taxable_income u rest
  | lower, (none, rate) :: _ => max 0 (taxable_income - lower) * rate

/-- Chain condition under which the early-exit walk equals the portion
sum: each bounded bracket's upper limit is at least the running lower
bound. -/
def bracketsAscendingFrom (lower : ℚ) : List (Option ℚ × ℚ) → Prop
  | [] => True
  | (some u, _) :: rest => lower ≤ u ∧ bracketsAscendingFrom u rest
  | (none, _) :: _ => True

/-- NO_TAX_STATES from models/budget.py StateTaxConfig. -/
def NO_TAX_STATES : List String :=
  ["AK", "FL", "NV", "NH", "SD", "TN", "TX", "WA", "WY"]

/-- California single-filer brackets from models/budget.py. -/
def ca_brackets_single : List (Option ℚ × ℚ) :=
  [(some 10099, 0.01), (some 23942, 0.02), (some 37788, 0.04),
   (some 52455, 0.06), (some 66295, 0.08), (some 338639, 0.093),
   (some 406364, 0.103), (some 677275, 0.113), (some 1000000, 0.123),
   (none, 0.133)]

/-- California married-filing-jointly brackets from models/budget.py. -/
def ca_brackets_mfj : List (Option ℚ × ℚ) :=
  [(some 20198, 0.01), (some 47884, 0.02), (some 75576, 0.04),
   (some 104910, 0.06), (some 132590, 0.08), (some 677278, 0.093),
   (some 812728, 0.103), (some 1000000, 0.113), (some 1354550, 0.123),
   (none, 0.133)]

/-- California head-of-household brackets from models/budget.py. -/
def ca_brackets_hoh : List (Option ℚ × ℚ) :=
  [(some 20212, 0.01), (some 47887, 0.02), (some 61730, 0.04),
   (some 76343, 0.06), (some 96920, 0.08), (some 494503, 0.093),
   (some 592005, 0.103), (some 1000000, 0.113), (some 1016644, 0.123),
   (none, 0.133)]

/-- California married-filing-separately brackets from models/budget.py. -/
def ca_brackets_mfs : List (Option ℚ × ℚ) :=
  [(some 10099, 0.01), (some 23942, 0.02), (some 37788, 0.04),
   (some 52455, 0.06), (some 66295, 0.08), (some 338639, 0.093),
   (some 406364, 0.103), (some 500000, 0.113), (some 677275, 0.123),
   (none, 0.133)]

/-- PROGRESSIVE_BRACKETS for California from models/budget.py, keyed by
the filing-status string; the .get fallback for an unknown status string
is the single table. -/
def CA_PROGRESSIVE_BRACKETS (filing_status : String) : List (Option ℚ × ℚ) :=
  if filing_status = "married_filing_jointly" then ca_brackets_mfj
  else if filing_status = "head_of_household" then ca_brackets_hoh
  else if filing_status = "married_filing_separately" then ca_brackets_mfs
  else ca_brackets_single

/-- StateTaxConfig.has_progressive_brackets: only CA has progressive
brackets in the source table. -/
def has_progressive_brackets (state_code : String) : Bool :=
  state_code.toUpper == "CA"

/-- StateTaxConfig.get_progressive_brackets from models/budget.py. -/
def get_progressive_brackets (state_code filing_status : String) :
    Option (List (Option ℚ × ℚ)) :=
  if state_code.toUpper == "CA" then some (CA_PROGRESSIVE_BRACKETS filing_status)
  else none

/-- FLAT_RATES from models/budget.py StateTaxConfig. -/
def FLAT_RATES : List (String × ℚ) :=
  [("AZ", 0.025), ("CO", 0.044), ("IL", 0.0495), ("IN", 0.0323),
   ("MA", 0.05), ("MI", 0.0425), ("NC", 0.0475), ("PA", 0.0307),
   ("UT", 0.0485)]

/-- StateTaxConfig.get_state_rate: 0 for no-tax states, the flat-rate
table when listed, otherwise the 5% fallback. -/
def get_state_rate (state_code : String) : ℚ :=
  let u := state_code.toUpper
  if NO_TAX_STATES.contains u then 0
  else
    match FLAT_RATES.find? (fun p => p.1 == u) with
    | some p => p.2
    | none => 0.05

/-- StateTaxConfig.is_no_tax_state. -/
def is_no_tax_state (state_code : String) : Bool :=
  NO_TAX_STATES.contains state_code.toUpper

/-- Loop body of calculate_progressive_tax from tax/state.py, carrying
previous_threshold and breaking once income is at or below it.  A none
threshold is the float-inf top bracket: min(income, inf) = income and the
infinite previous threshold makes every later iteration break. -/
def progressive_walk (income : ℚ) : ℚ → List (Option ℚ × ℚ) → ℚ
  | _, [] => 0
  | previous_threshold, (threshold, rate) :: rest =>
      if income ≤ previous_threshold then 0
      else
        match threshold with
        | some th =>
            (min income th - previous_threshold) * rate
              + progressive_walk income th rest
        | none => (income - previous_threshold) * rate

/-- calculate_progressive_tax from tax/state.py. -/
def calculate_progressive_tax (income : ℚ) (brackets : List (Option ℚ × ℚ)) : ℚ :=
  if income ≤ 0 then 0
  else if brackets.isEmpty then 0
  else progressive_walk income 0 brackets

/-- calculate_state_tax from tax/state.py: zero AGI floor, no-tax states,
progressive brackets when defined and non-empty, flat rate otherwise. -/
def calculate_state_tax (agi : ℚ) (residence_state filing_status : String) : ℚ :=
  if agi ≤ 0 then 0
  else
    let s := residence_state.toUpper
    if is_no_tax_state s then 0
    else if has_progressive_brackets s then
      match get_progressive_brackets s filing_status with
      | some brackets =>
          if brackets.isEmpty then agi * get_state_rate s
          else calculate_progressive_tax agi brackets
      | none => agi * get_state_rate s
    else agi * get_state_rate s

/-- calculate_effective_tax_rate from tax/federal.py. -/
def calculate_effective_tax_rate (total_tax agi : ℚ) : ℚ :=
  if agi ≤ 0 then 0 else total_tax / agi

/-- TaxSummary output record from models (one per calendar year). -/
structure TaxSummary where
  year : ℤ
  total_ssa_income : ℚ
  taxable_ssa_income : ℚ
  other_ordinary_income : ℚ
  agi : ℚ
  standard_deduction : ℚ
  taxable_income : ℚ
  federal_tax : ℚ
  state_tax : ℚ
  total_tax : ℚ
  effective_tax_rate : ℚ
deriving DecidableEq, Repr

/-- TaxCalculator.calculate_annual_taxes from tax/calculator.py.  The
state-tax call in the source passes only AGI and the residence state, so
the filing_status parameter of calculate_state_tax keeps its declared
default, the string single. -/
def calculate_annual_taxes (filing_status : FilingStatus) (residence_state : String)
    (standard_deduction_override : Option ℚ)
    (annual_ssa_income annual_other_income tax_exempt_interest : ℚ) : TaxSummary :=
  let taxable_ssa := calculate_taxable_ssa annual_ssa_income annual_other_income
    filing_status tax_exempt_interest
  let agi := calculate_agi annual_other_income taxable_ssa 0 0
  let standard_deduction := get_standard_deduction filing_status standard_deduction_override
  let taxable_income := calculate_taxable_income agi filing_status standard_deduction_override
  let federal_tax := calculate_federal_tax taxable_income filing_status
  let state_tax := calculate_state_tax agi residence_state "single"
  let total_tax := federal_tax + state_tax
  { year := 0
    total_ssa_income := annual_ssa_income
    taxable_ssa_income := taxable_ssa
    other_ordinary_income := annual_other_income
    agi := agi
    standard_deduction := standard_deduction
    taxable_income := taxable_income
    federal_tax := federal_tax
    state_tax := state_tax
    total_tax := total_tax
    effective_tax_rate := calculate_effective_tax_rate total_tax agi }

/-- Person from models/core.py: birth date and optional life expectancy. -/
structure Person where
  person_id : String
  birth_year : ℤ
  birth_month : ℤ
  life_expectancy_years : Option ℤ
deriving DecidableEq, Repr

/-- Computed death_year_month property of Person: birth year plus life
expectancy, same calendar month as birth; none without a life
expectancy. -/
def death_year_month (p : Person) : Option Ym :=
  p.life_expectancy_years.map (fun le => ⟨p.birth_year + le, p.birth_month⟩)

/-- FilingStatusTracker from engine/projector.py: the people list and the
scenario's configured filing status. -/
structure FilingStatusTracker where
  people : List Person
  initial_status : FilingStatus

/-- The death_dates list the tracker extracts in its constructor. -/
def tracker_death_dates (t : FilingStatusTracker) : List Ym :=
  t.people.filterMap death_year_month

/-- FilingStatusTracker.get_status from engine/projector.py: a
non-married initial status is returned unchanged, as is any scenario with
fewer than two people; otherwise the status is single exactly when the
current calendar year is strictly greater than some death year. -/
def get_status (t : FilingStatusTracker) (ym : Ym) : FilingStatus :=
  if t.initial_status ≠ FilingStatus.married_filing_jointly then t.initial_status
  else if t.people.length < 2 then t.initial_status
  else if (tracker_death_dates t).any (fun d => d.year < ym.year) then
    FilingStatus.single
  else FilingStatus.married_filing_jointly

/-- One-person married-filing-jointly scenario whose only person dies in
June 2030, used to refute C4 as stated. -/
def mfj_one_person_tracker : FilingStatusTracker :=
  { people := [{ person_id := "p1", birth_year := 1960, birth_month := 6,
                 life_expectancy_years := some 70 }]
    initial_status := FilingStatus.married_filing_jointly }

/-- IncomeStreamType enum from models/core.py. -/
inductive IncomeStreamType where
  | pension
  | social_security
  | salary
  | self_employment
  | other
deriving DecidableEq, Repr

/-- IncomeStream from models/core.py (validated fields: amount > 0,
COLA rate in [0, 0.5], COLA month in [1, 12]). -/
structure IncomeStream where
  stream_id : String
  type : IncomeStreamType
  start_month : Ym
  end_month : Option Ym
  monthly_amount_at_start : ℚ
  cola_percent_annual : ℚ
  cola_month : ℤ
deriving DecidableEq, Repr

/-- IncomeState from engine/income.py: the stream plus its mutable
current amount and last-COLA-applied year. -/
structure IncomeState where
  stream : IncomeStream
  current_amount : ℚ
  last_cola_year : Option ℤ
deriving DecidableEq, Repr

/-- IncomeState.__init__ from engine/income.py. -/
def init_income_state (s : IncomeStream) : IncomeState :=
  { stream := s, current_amount := s.monthly_amount_at_start, last_cola_year := none }

/-- IncomeState.apply_cola_if_due from engine/income.py: in the COLA
month, if not yet applied this calendar year and the rate is positive,
multiply the amount by (1 + rate) and record the year. -/
def apply_cola_if_due (st : IncomeState) (ym : Ym) (month_num : ℤ) : IncomeState :=
  if month_num ≠ st.stream.cola_month then st
  else if st.last_cola_year = some ym.year then st
  else if 0 < st.stream.cola_percent_annual then
    { st with current_amount := st.current_amount * (1 + st.stream.cola_percent_annual),
              last_cola_year := some ym.year }
  else st

/-- Per-stream slice of IncomeProcessor.process_month from
engine/income.py: zero outside the active window with the state left
untouched, otherwise COLA is applied first and the updated amount is
reported. -/
def income_state_process_month (st : IncomeState) (ym : Ym) (month_num : ℤ) :
    ℚ × IncomeState :=
  if month_is_before ym st.stream.start_month then (0, st)
  else if (match st.stream.end_month with
           | some e => month_is_after ym e
           | none => false) then (0, st)
  else
    let st' := apply_cola_if_due st ym month_num
    (st'.current_amount, st')

/-- IncomeProcessor.process_month from engine/income.py, mapping the
per-stream step over all stream states and keying results by stream id. -/
def income_process_month (states : List IncomeState) (ym : Ym) (month_num : ℤ) :
    List (String × ℚ) × List IncomeState :=
  (states.map (fun st => (st.stream.stream_id, (income_state_process_month st ym month_num).1)),
   states.map (fun st => (income_state_process_month st ym month_num).2))

/-- Chronological run of the per-stream step over a list of
(year-month, month-number) pairs. -/
def income_run (st : IncomeState) : List (Ym × ℤ) → IncomeState
  | [] => st
  | (ym, mn) :: rest => income_run (income_state_process_month st ym mn).2 rest

/-- Concrete pension stream of the spec scenario: 5000 per month starting
2026-01 with 2% COLA in January. -/
def pension_income_example : IncomeState :=
  init_income_state
    { stream_id := "pension"
      type := IncomeStreamType.pension
      start_month := { year := 2026, month := 1 }
      end_month := none
      monthly_amount_at_start := 5000
      cola_percent_annual := 0.02
      cola_month := 1 }

/-- TaxBucket enum from models/core.py. -/
inductive TaxBucket where
  | taxable
  | tax_deferred
  | roth
deriving DecidableEq, Repr

/-- String value of a TaxBucket (str-valued enum in the source). -/
def TaxBucket.value : TaxBucket → String
  | .taxable => "taxable"
  | .tax_deferred => "tax_deferred"
  | .roth => "roth"

/-- InvestmentAccount from models/core.py.  The source stores the annual
rate and derives monthly_return_rate = (1 + annual) ^ (1/12) - 1 as a
computed field; the twelfth root is irrational, so the embedding carries
the derived monthly rate as the account datum (every engine computation
reads only monthly_return_rate).  The receives_surplus flag is the
boolean read by engine/accounts.py and the surplus pass (spec section 3:
at most one account should carry it). -/
structure InvestmentAccount where
  account_id : String
  name : String
  tax_bucket : TaxBucket
  starting_balance : ℚ
  monthly_return_rate : ℚ
  monthly_contribution : ℚ
  contribution_start_month : Option Ym
  contribution_end_month : Option Ym
  monthly_withdrawal : ℚ
  withdrawal_start_month : Option Ym
  withdrawal_end_month : Option Ym
  receives_surplus : Bool
deriving DecidableEq, Repr

/-- AccountState from engine/accounts.py: the account plus its mutable
balance. -/
structure AccountState where
  account : InvestmentAccount
  balance : ℚ
deriving DecidableEq, Repr

/-- AccountState.__init__. -/
def init_account_state (a : InvestmentAccount) : AccountState :=
  { account := a, balance := a.starting_balance }

/-- AccountState.should_contribute from engine/accounts.py (reads only
the account configuration). -/
def should_contribute (a : InvestmentAccount) (ym : Ym) : Bool :=
  (match a.contribution_start_month with
   | some s => !(month_is_before ym s)
   | none => true) &&
  (match a.contribution_end_month with
   | some e => !(month_is_after ym e)
   | none => true)

/-- AccountState.should_withdraw from engine/accounts.py. -/
def should_withdraw (a : InvestmentAccount) (ym : Ym) : Bool :=
  (match a.withdrawal_start_month with
   | some s => !(month_is_before ym s)
   | none => true) &&
  (match a.withdrawal_end_month with
   | some e => !(month_is_after ym e)
   | none => true)

/-- AccountState.apply_contribution. -/
def apply_contribution (ym : Ym) (st : AccountState) : AccountState :=
  if should_contribute st.account ym then
    { st with balance := st.balance + st.account.monthly_contribution }
  else st

/-- AccountState.apply_withdrawal: subtract the configured withdrawal;
when the balance would go negative, return only what was available and
zero the balance. -/
def apply_withdrawal (ym : Ym) (st : AccountState) : ℚ × AccountState :=
  if should_withdraw st.account ym then
    let withdrawal := st.account.monthly_withdrawal
    let b := st.balance - withdrawal
    if b < 0 then (withdrawal + b, { st with balance := 0 })
    else (withdrawal, { st with balance := b })
  else (0, st)

/-- AccountState.apply_growth. -/
def apply_growth (st : AccountState) : AccountState :=
  { st with balance := st.balance * (1 + st.account.monthly_return_rate) }

/-- Inner update of AccountProcessor.deposit_surplus: add the surplus to
the state stored under the given account id and clamp at zero.  The
source locates the state through the id-keyed states dict, which holds
one entry per account id, so the first state carrying the id is
updated. -/
def deposit_first (fid : String) (amount : ℚ) : List AccountState → List AccountState
  | [] => []
  | st :: rest =>
      if st.account.account_id = fid then
        { st with balance := if st.balance + amount < 0 then 0 else st.balance + amount }
          :: rest
      else st :: deposit_first fid amount rest

/-- AccountProcessor.deposit_surplus from engine/accounts.py: find the
first account flagged receives_surplus; without one, nothing happens. -/
def deposit_surplus (amount : ℚ) (states : List AccountState) : List AccountState :=
  match states.find? (fun st => st.account.receives_surplus) with
  | none => states
  | some stf => deposit_first stf.account.account_id amount states

/-- AccountProcessor.process_month from engine/accounts.py: contributions
to all accounts, then withdrawals, then the prior-month surplus deposit
(only when nonzero), then growth; returns withdrawals by account,
balances by account, and the new states. -/
def account_process_month (states : List AccountState) (ym : Ym)
    (prior_month_surplus : ℚ) :
    List (String × ℚ) × List (String × ℚ) × List AccountState :=
  let s1 := states.map (apply_contribution ym)
  let withdrawals := s1.map (fun st => (st.account.account_id, (apply_withdrawal ym st).1))
  let s2 := s1.map (fun st => (apply_withdrawal ym st).2)
  let s3 := if prior_month_surplus ≠ 0 then deposit_surplus prior_month_surplus s2 else s2
  let s4 := s3.map apply_growth
  (withdrawals, s4.map (fun st => (st.account.account_id, st.balance)), s4)

/-- Contribution actually applied for the month: the fixed amount inside
the window, zero outside. -/
def contribution_of (a : InvestmentAccount) (ym : Ym) : ℚ :=
  if should_contribute a ym then a.monthly_contribution else 0

/-- Clamped withdrawal reported for the month: the configured amount
inside the window, reduced to the available post-contribution balance
when that is smaller, zero outside the window. -/
def withdrawal_of (st : AccountState) (ym : Ym) : ℚ :=
  min (if should_withdraw st.account ym then st.account.monthly_withdrawal else 0)
      (st.balance + contribution_of st.account ym)

/-- Surplus amount landing on an account this month: the prior-month
surplus when it is nonzero and the account carries the
receives_surplus flag, zero otherwise. -/
def surplus_share (s : ℚ) (a : InvestmentAccount) : ℚ :=
  if s ≠ 0 ∧ a.receives_surplus = true then s else 0

/-- Modelled from the spec wording of C1 (with the surplus clamp the code
also applies): the end-of-month state has the same account and balance
max(0, start + contribution - clamped withdrawal + surplus share)
times (1 + monthly rate). -/
def account_month_model (ym : Ym) (s : ℚ) (st : AccountState) : AccountState :=
  { account := st.account
    balance := max 0 (st.balance + contribution_of st.account ym - withdrawal_of st ym
        + surplus_share s st.account) * (1 + st.account.monthly_return_rate) }

/-- Flagged savings account with balance 100, zero rate and no
contribution or withdrawal, used to refute the unclamped surplus formula
of C1. -/
def surplus_account_example : InvestmentAccount :=
  { account_id := "sav"
    name := "Savings"
    tax_bucket := TaxBucket.taxable
    starting_balance := 100
    monthly_return_rate := 0
    monthly_contribution := 0
    contribution_start_month := none
    contribution_end_month := none
    monthly_withdrawal := 0
    withdrawal_start_month := none
    withdrawal_end_month := none
    receives_surplus := true }

/-- MonthlyProjection output record (spec section 3), the per-month
snapshot built by engine/projector.py. -/
structure MonthlyProjection where
  month : Ym
  income_by_stream : List (String × ℚ)
  withdrawals_by_account : List (String × ℚ)
  withdrawals_by_tax_bucket : List (String × ℚ)
  balances_by_account : List (String × ℚ)
  balances_by_tax_bucket : List (String × ℚ)
  total_investments : ℚ
  total_gross_cashflow : ℚ
  filing_status : String
deriving DecidableEq, Repr

/-- NetIncomeProjection output record (spec section 3), one per month. -/
structure NetIncomeProjection where
  month : Ym
  gross_cashflow : ℚ
  estimated_federal_tax : ℚ
  estimated_state_tax : ℚ
  estimated_total_tax : ℚ
  net_income_after_tax : ℚ
  inflation_adjusted_spending : ℚ
  surplus_deficit : ℚ
deriving DecidableEq, Repr

/-- Membership test mirroring the python `key in dict` check on the
string-keyed balance dicts (insertion-ordered, unique keys). -/
def dict_contains (k : String) (l : List (String × ℚ)) : Bool :=
  l.any (fun p => p.1 == k)

/-- Lookup mirroring dict access (first entry wins; unique keys in the
source dicts). -/
def dict_lookup (k : String) (l : List (String × ℚ)) : Option ℚ :=
  (l.find? (fun p => p.1 == k)).map (fun p => p.2)

/-- In-place `dict[k] += x`: every entry under the key is increased (on
the unique-key dicts of the source this is the single entry). -/
def dict_add (k : String) (x : ℚ) (l : List (String × ℚ)) : List (String × ℚ) :=
  l.map (fun p => if p.1 == k then (p.1, p.2 + x) else p)

/-- Loop body of apply_surplus_to_accounts from
api/endpoints/projections.py for one month: add the running total to the
designated account's balance entry when present, always to
total_investments, and to the account's tax-bucket entry when present. -/
def surplus_month_update (aid bucket : String) (cum : ℚ)
    (mp : MonthlyProjection) : MonthlyProjection :=
  { mp with
    balances_by_account :=
      if dict_contains aid mp.balances_by_account then
        dict_add aid cum mp.balances_by_account
      else mp.balances_by_account
    total_investments := mp.total_investments + cum
    balances_by_tax_bucket :=
      if dict_contains bucket mp.balances_by_tax_bucket then
        dict_add bucket cum mp.balances_by_tax_bucket
      else mp.balances_by_tax_bucket }

/-- The zip loop of apply_surplus_to_accounts, carrying the cumulative
surplus; months beyond the shorter list are left untouched, as with
python zip over a mutated list. -/
def apply_surplus_aux (aid bucket : String) :
    ℚ → List MonthlyProjection → List NetIncomeProjection → List MonthlyProjection
  | _, [], _ => []
  | _, mps, [] => mps
  | cum, mp :: mps, np :: nps =>
      surplus_month_update aid bucket (cum + np.surplus_deficit) mp
        :: apply_surplus_aux aid bucket (cum + np.surplus_deficit) mps nps

/-- apply_surplus_to_accounts from api/endpoints/projections.py: find the
first flagged account; without one nothing is modified. -/
def apply_surplus_to_accounts (mps : List MonthlyProjection)
    (nps : List NetIncomeProjection) (accounts : List InvestmentAccount) :
    List MonthlyProjection :=
  match accounts.find? (fun a => a.receives_surplus) with
  | none => mps
  | some acc => apply_surplus_aux acc.account_id acc.tax_bucket.value 0 mps nps

/-- Example monthly projection holding the flagged savings account at
balance 100. -/
def example_monthly_projection : MonthlyProjection :=
  { month := { year := 2026, month := 1 }
    income_by_stream := [("pension", 5000)]
    withdrawals_by_account := [("sav", 0)]
    withdrawals_by_tax_bucket := [("taxable", 0)]
    balances_by_account := [("sav", 100)]
    balances_by_tax_bucket := [("taxable", 100)]
    total_investments := 100
    total_gross_cashflow := 5000
    filing_status := "single" }

/-- Example net-income projection with a monthly deficit of 200. -/
def example_net_income_projection : NetIncomeProjection :=
  { month := { year := 2026, month := 1 }
    gross_cashflow := 5000
    estimated_federal_tax := 0
    estimated_state_tax := 0
    estimated_total_tax := 0
    net_income_after_tax := 5000
    inflation_adjusted_spending := 5200
    surplus_deficit := -200 }

/-- CategoryType enum from models/budget.py. -/
inductive CategoryType where
  | fixed
  | flexible
deriving DecidableEq, Repr

/-- SurvivorReductionMode enum from models/budget.py. -/
inductive SurvivorReductionMode where
  | flex_only
  | all
deriving DecidableEq, Repr

/-- BudgetCategory from models/budget.py.  The source field `include` is
a Lean keyword and is embedded as include_flag. -/
structure BudgetCategory where
  category_name : String
  category_type : CategoryType
  monthly_amount : ℚ
  include_flag : Bool
  main_category : String
  end_month : Option Ym
deriving DecidableEq, Repr

/-- BudgetSettings from models/budget.py. -/
structure BudgetSettings where
  categories : List BudgetCategory
  inflation_annual_percent : ℚ
  survivor_flexible_reduction_percent : ℚ
  survivor_reduction_mode : SurvivorReductionMode
deriving DecidableEq, Repr

/-- BudgetState from budget/inflation.py: settings, the mutable
current-amount dict over included categories, the last inflation year and
the survivor one-shot latch. -/
structure BudgetState where
  settings : BudgetSettings
  current_amounts : List (String × ℚ)
  last_inflation_year : Option ℤ
  survivor_reduction_applied : Bool
deriving DecidableEq, Repr

/-- BudgetState.__init__: one dict entry per included category. -/
def init_budget_state (s : BudgetSettings) : BudgetState :=
  { settings := s
    current_amounts := s.categories.filterMap (fun c =>
      if c.include_flag then some (c.category_name, c.monthly_amount) else none)
    last_inflation_year := none
    survivor_reduction_applied := false }

/-- BudgetState.apply_inflation_if_due from budget/inflation.py: January
only, once per calendar year, only with a positive rate. -/
def apply_inflation_if_due (st : BudgetState) (ym : Ym) (month_num : ℤ) : BudgetState :=
  if month_num ≠ 1 then st
  else if st.last_inflation_year = some ym.year then st
  else if 0 < st.settings.inflation_annual_percent then
    { st with
      current_amounts := st.current_amounts.map
        (fun p => (p.1, p.2 * (1 + st.settings.inflation_annual_percent)))
      last_inflation_year := some ym.year }
  else st

/-- In-place `dict[k] *= f` on the current-amount dict. -/
def dict_mul (k : String) (f : ℚ) (l : List (String × ℚ)) : List (String × ℚ) :=
  l.map (fun p => if p.1 == k then (p.1, p.2 * f) else p)

/-- Reduction loop of apply_survivor_reduction_if_needed: walk the
configured categories, skipping excluded ones, reducing every category in
mode all and only flexible ones in mode flex_only. -/
def reduce_amounts (s : BudgetSettings) (amounts : List (String × ℚ)) :
    List (String × ℚ) :=
  s.categories.foldl (fun acc c =>
    if c.include_flag = false then acc
    else if s.survivor_reduction_mode = SurvivorReductionMode.all then
      dict_mul c.category_name (1 - s.survivor_flexible_reduction_percent) acc
    else if c.category_type = CategoryType.flexible then
      dict_mul c.category_name (1 - s.survivor_flexible_reduction_percent) acc
    else acc) amounts

/-- BudgetState.apply_survivor_reduction_if_needed from
budget/inflation.py: a one-shot latch triggered the first month at or
after some death year-month when the scenario has two or more people. -/
def apply_survivor_reduction_if_needed (st : BudgetState) (ym : Ym)
    (people : List Person) : BudgetState :=
  if st.survivor_reduction_applied then st
  else if people.length < 2 then st
  else if ¬ (people.any (fun p =>
      match death_year_month p with
      | some d => ym_le d ym
      | none => false)) then st
  else if st.settings.survivor_flexible_reduction_percent ≤ 0 then
    { st with survivor_reduction_applied := true }
  else
    { st with
      current_amounts := reduce_amounts st.settings st.current_amounts
      survivor_reduction_applied := true }

/-- BudgetProcessor.process_month from budget/inflation.py: inflation,
then survivor reduction, then the sum of current amounts. -/
def budget_process_month (people : List Person) (st : BudgetState) (ym : Ym)
    (month_num : ℤ) : ℚ × BudgetState :=
  let st1 := apply_inflation_if_due st ym month_num
  let st2 := apply_survivor_reduction_if_needed st1 ym people
  ((st2.current_amounts.map (fun p => p.2)).sum, st2)

/-- Chronological run of the budget processor, collecting the monthly
totals. -/
def budget_run (people : List Person) (st : BudgetState) :
    List (Ym × ℤ) → List ℚ × BudgetState
  | [] => ([], st)
  | (ym, mn) :: rest =>
      let r := budget_process_month people st ym mn
      let rr := budget_run people r.2 rest
      (r.1 :: rr.1, rr.2)

/-- Budget settings with every category's end_month replaced according to
an arbitrary reassignment, used to state that the processor never reads
the field. -/
def set_end_months (s : BudgetSettings) (f : BudgetCategory → Option Ym) :
    BudgetSettings :=
  { s with categories := s.categories.map (fun c => { c with end_month := f c }) }

/-- A budget state whose stored settings have the reassigned
end_months. -/
def state_set_end_months (f : BudgetCategory → Option Ym) (st : BudgetState) :
    BudgetState :=
  { st with settings := set_end_months st.settings f }

/-- Monthly tax estimate lookup of NetIncomeCalculator from
budget/net_income.py: the source builds a dict keyed YYYY-MM over months
1..12 of each summary's year (a later summary for the same year
overwrites an earlier one, hence the reversed find) and the lookup
defaults to zero taxes for months outside the table. -/
def monthly_tax_estimate (tax_summaries : List TaxSummary) (ym : Ym) : ℚ × ℚ × ℚ :=
  match tax_summaries.reverse.find? (fun ts => ts.year == ym.year) with
  | some ts =>
      if 1 ≤ ym.month ∧ ym.month ≤ 12 then
        (ts.federal_tax / 12, ts.state_tax / 12, ts.total_tax / 12)
      else (0, 0, 0)
  | none => (0, 0, 0)

/-- NetIncomeCalculator.create_projection from budget/net_income.py. -/
def create_projection (tax_summaries : List TaxSummary) (mp : MonthlyProjection)
    (monthly_spending : ℚ) : NetIncomeProjection :=
  let est := monthly_tax_estimate tax_summaries mp.month
  let net := mp.total_gross_cashflow - est.2.2
  { month := mp.month
    gross_cashflow := mp.total_gross_cashflow
    estimated_federal_tax := est.1
    estimated_state_tax := est.2.1
    estimated_total_tax := est.2.2
    net_income_after_tax := net
    inflation_adjusted_spending := monthly_spending
    surplus_deficit := net - monthly_spending }

/-- calculate_net_income_projections from budget/net_income.py: a length
mismatch raises ValueError (embedded as Except.error), otherwise one
projection per zipped month. -/
def calculate_net_income_projections (mps : List MonthlyProjection)
    (tax_summaries : List TaxSummary) (monthly_spending_amounts : List ℚ) :
    Except String (List NetIncomeProjection) :=
  if mps.length ≠ monthly_spending_amounts.length then
    Except.error "Mismatch between monthly projections and spending amounts"
  else
    Except.ok (List.zipWith (create_projection tax_summaries) mps
      monthly_spending_amounts)

/-- Summary record returned by get_financial_summary (its python shape is
a dict; the empty input returns the empty dict, embedded as none). -/
structure FinancialSummary where
  total_gross_income : ℚ
  total_taxes : ℚ
  total_spending : ℚ
  total_surplus_deficit : ℚ
  average_monthly_surplus_deficit : ℚ
  months_in_surplus : ℕ
  months_in_deficit : ℕ
  total_months : ℕ
deriving DecidableEq, Repr

/-- get_financial_summary from budget/net_income.py. -/
def get_financial_summary (nips : List NetIncomeProjection) :
    Option FinancialSummary :=
  if nips.isEmpty then none
  else
    some
      { total_gross_income := (nips.map (fun p => p.gross_cashflow)).sum
        total_taxes := (nips.map (fun p => p.estimated_total_tax)).sum
        total_spending := (nips.map (fun p => p.inflation_adjusted_spending)).sum
        total_surplus_deficit := (nips.map (fun p => p.surplus_deficit)).sum
        average_monthly_surplus_deficit :=
          if 0 < nips.length then
            (nips.map (fun p => p.surplus_deficit)).sum / (nips.length : ℚ)
          else 0
        months_in_surplus := nips.countP (fun p => 0 < p.surplus_deficit)
        months_in_deficit := nips.countP (fun p => p.surplus_deficit < 0)
        total_months := nips.length }

/-- C2: for every positive SSA income the three provisional-income tiers of
calculate_taxable_ssa return 0, the capped 50% excess, and the capped
50/85 blend respectively; married-filing-separately has base = max = 0;
and the concrete scenario SSA 40000, other income 40000, single filer
yields exactly 26600. -/
theorem C2_taxable_ssa_tiers
    (ssa other exempt : ℚ) (fs : FilingStatus) (hssa : 0 < ssa) :
    (let provisional := other + exempt + 0.5 * ssa
     let base := (SSA_THRESHOLDS fs).1
     let mx := (SSA_THRESHOLDS fs).2
     (provisional ≤ base → calculate_taxable_ssa ssa other fs exempt = 0) ∧
     (base < provisional → provisional ≤ mx →
        calculate_taxable_ssa ssa other fs exempt
          = min (0.5 * (provisional - base)) (0.5 * ssa)) ∧
     (mx < provisional →
        calculate_taxable_ssa ssa other fs exempt
          = min (0.5 * (mx - base) + 0.85 * (provisional - mx)) (0.85 * ssa))) ∧
    SSA_THRESHOLDS .married_filing_separately = (0, 0) ∧
    calculate_taxable_ssa 40000 40000 .single 0 = 26600 := by
  refine ⟨⟨?_, ?_, ?_⟩, rfl, by norm_num [calculate_taxable_ssa, SSA_THRESHOLDS,
    calculate_provisional_income]⟩
  · intro h
    simp only [calculate_taxable_ssa, calculate_provisional_income,
      if_neg (not_le.mpr hssa)]
    simp [h]
  · intro h1 h2
    simp only [calculate_taxable_ssa, calculate_provisional_income,
      if_neg (not_le.mpr hssa)]
    rw [if_neg (by exact not_le.mpr h1), if_pos h2]
  · intro h
    simp only [calculate_taxable_ssa, calculate_provisional_income,
      if_neg (not_le.mpr hssa)]
    rw [if_neg, if_neg (by exact not_le.mpr h)]
    have hb : (SSA_THRESHOLDS fs).1 ≤ (SSA_THRESHOLDS fs).2 := by
      cases fs <;> norm_num [SSA_THRESHOLDS]
    exact not_le.mpr (lt_of_le_of_lt hb h)

/-- Witness for C2 at the concrete spec scenario. -/
theorem C2_taxable_ssa_tiers_witness :
    calculate_taxable_ssa 40000 40000 .single 0 = 26600 :=
  (C2_taxable_ssa_tiers 40000 40000 0 .single (by norm_num)).2.2

theorem bracket_portion_sum_of_le (t : ℚ) :
    ∀ (lower : ℚ) (bs : List (Option ℚ × ℚ)), t ≤ lower →
      bracketsAscendingFrom lower bs → bracket_portion_sum t lower bs = 0 := by
  intro lower bs
  induction bs generalizing lower with
  | nil => intro _ _; rfl
  | cons b rest ih =>
      intro hle hasc
      match b with
      | (some u, rate) =>
          have hlu : lower ≤ u := hasc.1
          have h1 : min t u - lower ≤ 0 := by
            have : min t u ≤ lower := le_trans (min_le_left _ _) hle
            linarith
          simp only [bracket_portion_sum]
          rw [max_eq_left h1, ih u (le_trans hle hlu) hasc.2, zero_mul, add_zero]
      | (none, rate) =>
          have h1 : t - lower ≤ 0 := by linarith
          simp only [bracket_portion_sum]
          rw [max_eq_left h1, zero_mul]

theorem bracket_walk_eq_portion_sum (t : ℚ) :
    ∀ (lower : ℚ) (bs : List (Option ℚ × ℚ)),
      bracketsAscendingFrom lower bs →
      bracket_walk t lower bs = bracket_portion_sum t lower bs := by
  intro lower bs
  induction bs generalizing lower with
  | nil => intro _; rfl
  | cons b rest ih =>
      intro hasc
      match b with
      | (some u, rate) =>
          have hlu : lower ≤ u := hasc.1
          by_cases ht : t ≤ lower
          · simp only [bracket_walk, if_pos ht]
            rw [bracket_portion_sum_of_le t lower ((some u, rate) :: rest) ht hasc]
          · simp only [bracket_walk, bracket_portion_sum, if_neg ht]
            rw [ih u hasc.2]
            congr 1
            by_cases htu : t ≤ u
            · rw [if_pos htu, min_eq_left htu,
                max_eq_right (by linarith [not_le.mp ht])]
            · rw [if_neg htu, min_eq_right (le_of_not_le htu),
                max_eq_right (by linarith)]
      | (none, rate) =>
          by_cases ht : t ≤ lower
          · simp only [bracket_walk, if_pos ht]
            rw [bracket_portion_sum_of_le t lower ((none, rate) :: rest) ht hasc]
          · simp only [bracket_walk, bracket_portion_sum, if_neg ht]
            rw [max_eq_right (by linarith [not_le.mp ht])]

theorem federal_brackets_ascending (fs : FilingStatus) :
    bracketsAscendingFrom 0 (FEDERAL_TAX_BRACKETS_2024 fs) := by
  cases fs <;> simp [FEDERAL_TAX_BRACKETS_2024, bracketsAscendingFrom] <;> norm_num

/-- C3: federal taxable income is max(0, AGI minus the
deduction-or-override); the federal tax on nonpositive taxable income is
0; on positive taxable income it is the sum over the filing status's
ascending brackets of the marginal rate times the portion of income in
that bracket; and the docstring example (single, 50000) evaluates to
6053. -/
theorem C3_federal_tax_characterization :
    (∀ (agi : ℚ) (fs : FilingStatus) (ov : Option ℚ),
       calculate_taxable_income agi fs ov = max 0 (agi - get_standard_deduction fs ov)) ∧
    (∀ (fs : FilingStatus) (t : ℚ), t ≤ 0 → calculate_federal_tax t fs = 0) ∧
    (∀ (fs : FilingStatus) (t : ℚ), 0 < t →
       calculate_federal_tax t fs
         = bracket_portion_sum t 0 (FEDERAL_TAX_BRACKETS_2024 fs)) ∧
    calculate_federal_tax 50000 .single = 6053 := by
  refine ⟨fun _ _ _ => rfl, ?_, ?_, ?_⟩
  · intro fs t ht
    simp [calculate_federal_tax, if_pos ht]
  · intro fs t ht
    rw [calculate_federal_tax, if_neg (not_le.mpr ht)]
    exact bracket_walk_eq_portion_sum t 0 _ (federal_brackets_ascending fs)
  · norm_num [calculate_federal_tax, FEDERAL_TAX_BRACKETS_2024, bracket_walk]

/-- Witness for C3 applying the bracket characterization at taxable
income 50000 for a single filer. -/
theorem C3_federal_tax_characterization_witness :
    calculate_federal_tax 50000 FilingStatus.single
      = bracket_portion_sum 50000 0 (FEDERAL_TAX_BRACKETS_2024 FilingStatus.single) :=
  C3_federal_tax_characterization.2.2.1 FilingStatus.single 50000 (by norm_num)

/-- A valid scalar value below the surrogate range round-trips through
Char.ofNat. -/
theorem char_toNat_ofNat_valid {n : ℕ} (h : n.isValidChar) : (Char.ofNat n).toNat = n := by
  simp [Char.ofNat, dif_pos h, Char.ofNatAux, Char.toNat, UInt32.toNat]

/-- Uppercasing a character twice equals uppercasing it once, mirroring
the idempotence of the .upper() normalisation the source applies
repeatedly to state codes. -/
theorem char_toUpper_idem (c : Char) : c.toUpper.toUpper = c.toUpper := by
  simp only [Char.toUpper]
  by_cases h : c.toNat ≥ 97 ∧ c.toNat ≤ 122
  · rw [if_pos h]
    have hv : (c.toNat - 32).isValidChar := Or.inl (by omega)
    have h2 : (Char.ofNat (c.toNat - 32)).toNat = c.toNat - 32 := char_toNat_ofNat_valid hv
    rw [if_neg]
    rw [h2]
    omega
  · rw [if_neg h, if_neg h]

/-- Uppercasing a string is idempotent. -/
theorem string_toUpper_idem (s : String) : s.toUpper.toUpper = s.toUpper := by
  simp only [String.toUpper, String.map_eq]
  congr 1
  rw [List.map_map]
  apply List.map_congr_left
  intro c _
  exact char_toUpper_idem c

theorem CA_toUpper : "CA".toUpper = "CA" := by
  simp only [String.toUpper]
  rw [String.map_eq]
  rfl

theorem TX_toUpper : "TX".toUpper = "TX" := by
  simp only [String.toUpper]
  rw [String.map_eq]
  rfl

theorem PA_toUpper : "PA".toUpper = "PA" := by
  simp only [String.toUpper]
  rw [String.map_eq]
  rfl

theorem OH_toUpper : "OH".toUpper = "OH" := by
  simp only [String.toUpper]
  rw [String.map_eq]
  rfl

theorem is_no_tax_state_toUpper (s : String) :
    is_no_tax_state s.toUpper = is_no_tax_state s := by
  simp [is_no_tax_state, string_toUpper_idem]

theorem get_state_rate_toUpper (s : String) :
    get_state_rate s.toUpper = get_state_rate s := by
  simp [get_state_rate, string_toUpper_idem]

theorem has_progressive_brackets_toUpper (s : String) :
    has_progressive_brackets s.toUpper = has_progressive_brackets s := by
  simp [has_progressive_brackets, string_toUpper_idem]

/-- C5 (amended): the tax calculator computes state tax over AGI with the
filing-status argument left at its declared default, the string single,
for every configured filing status; on that path no-tax states yield 0,
California yields the single-filer bracket walk, every other state yields
AGI times its flat rate with 5% for states missing from the table, and
nonpositive AGI yields 0. -/
theorem C5_calculator_state_tax (fs : FilingStatus) (state : String) (ov : Option ℚ)
    (ssa other exempt : ℚ) :
    ((calculate_annual_taxes fs state ov ssa other exempt).state_tax
        = calculate_state_tax
            (calculate_annual_taxes fs state ov ssa other exempt).agi state "single") ∧
    ∀ agi : ℚ,
      (agi ≤ 0 → calculate_state_tax agi state "single" = 0) ∧
      (is_no_tax_state state = true → calculate_state_tax agi state "single" = 0) ∧
      (state.toUpper = "CA" → 0 < agi →
          calculate_state_tax agi state "single"
            = calculate_progressive_tax agi (CA_PROGRESSIVE_BRACKETS "single")) ∧
      (is_no_tax_state state = false → state.toUpper ≠ "CA" → 0 < agi →
          calculate_state_tax agi state "single" = agi * get_state_rate state) ∧
      (NO_TAX_STATES.contains state.toUpper = false →
          FLAT_RATES.find? (fun p => p.1 == state.toUpper) = none →
          get_state_rate state = 0.05) := by
  refine ⟨rfl, fun agi => ⟨?_, ?_, ?_, ?_, ?_⟩⟩
  · intro h
    simp [calculate_state_tax, if_pos h]
  · intro h
    by_cases hagi : agi ≤ 0
    · simp [calculate_state_tax, if_pos hagi]
    · simp only [calculate_state_tax, if_neg hagi]
      rw [is_no_tax_state_toUpper, h]
      simp
  · intro hca hagi
    simp only [calculate_state_tax, if_neg (not_le.mpr hagi)]
    rw [hca]
    have h1 : is_no_tax_state "CA" = false := by
      simp [is_no_tax_state, CA_toUpper]
      decide
    have h2 : has_progressive_brackets "CA" = true := by
      simp [has_progressive_brackets, CA_toUpper]
    have h3 : get_progressive_brackets "CA" "single"
        = some (CA_PROGRESSIVE_BRACKETS "single") := by
      simp [get_progressive_brackets, CA_toUpper]
    rw [h1, h2, h3]
    simp only [Bool.false_eq_true, if_false, if_true]
    have h4 : (CA_PROGRESSIVE_BRACKETS "single").isEmpty = false := by decide
    rw [h4]
    simp
  · intro hno hca hagi
    simp only [calculate_state_tax, if_neg (not_le.mpr hagi)]
    rw [is_no_tax_state_toUpper, hno]
    have h2 : has_progressive_brackets state.toUpper = false := by
      rw [has_progressive_brackets_toUpper]
      simp [has_progressive_brackets]
      exact hca
    rw [h2]
    simp only [Bool.false_eq_true, if_false]
    rw [get_state_rate_toUpper]
  · intro h1 h2
    simp only [get_state_rate, h1, h2]
    norm_num

/-- Witness for C5 at a no-tax state, a flat-rate state, an unknown state
and the California single-filer path. -/
theorem C5_calculator_state_tax_witness :
    calculate_state_tax 100 "TX" "single" = 0 ∧
    calculate_state_tax 100 "CA" "single"
      = calculate_progressive_tax 100 (CA_PROGRESSIVE_BRACKETS "single") ∧
    calculate_state_tax 100 "PA" "single" = 100 * get_state_rate "PA" ∧
    get_state_rate "OH" = 0.05 := by
  refine ⟨?_, ?_, ?_, ?_⟩
  · exact ((C5_calculator_state_tax .single "TX" none 0 0 0).2 100).2.1
      (by unfold is_no_tax_state; rw [TX_toUpper]; decide)
  · exact ((C5_calculator_state_tax .single "CA" none 0 0 0).2 100).2.2.1
      (by rw [CA_toUpper]) (by norm_num)
  · exact ((C5_calculator_state_tax .single "PA" none 0 0 0).2 100).2.2.2.1
      (by unfold is_no_tax_state; rw [PA_toUpper]; decide)
      (by rw [PA_toUpper]; decide) (by norm_num)
  · exact ((C5_calculator_state_tax .single "OH" none 0 0 0).2 100).2.2.2.2
      (by rw [OH_toUpper]; decide) (by rw [OH_toUpper]; decide)

/-- C5 counterexample: with a married-filing-jointly scenario in
California the calculator produces the single-filer bracket walk, which
differs from the married-filing-jointly bracket walk the claim requires
(AGI 200000: 15353.475 versus 12106.95). -/
theorem C5_state_brackets_counterexample :
    (calculate_annual_taxes .married_filing_jointly "CA" none 0 200000 0).state_tax
        = calculate_progressive_tax 200000 (CA_PROGRESSIVE_BRACKETS "single") ∧
    calculate_progressive_tax 200000 (CA_PROGRESSIVE_BRACKETS "single") = 614139 / 40 ∧
    calculate_progressive_tax 200000 (CA_PROGRESSIVE_BRACKETS "married_filing_jointly")
        = 242139 / 20 ∧
    (614139 / 40 : ℚ) ≠ 242139 / 20 := by
  have hb1 : CA_PROGRESSIVE_BRACKETS "single" = ca_brackets_single := by rfl
  have hb2 : CA_PROGRESSIVE_BRACKETS "married_filing_jointly" = ca_brackets_mfj := by rfl
  have hsingle : calculate_progressive_tax 200000 (CA_PROGRESSIVE_BRACKETS "single")
      = 614139 / 40 := by
    rw [hb1]
    norm_num [calculate_progressive_tax, ca_brackets_single, progressive_walk, min_def]
  have hmfj : calculate_progressive_tax 200000
      (CA_PROGRESSIVE_BRACKETS "married_filing_jointly") = 242139 / 20 := by
    rw [hb2]
    norm_num [calculate_progressive_tax, ca_brackets_mfj, progressive_walk, min_def]
  refine ⟨?_, hsingle, hmfj, by norm_num⟩
  have hagi : (calculate_annual_taxes .married_filing_jointly "CA" none 0 200000 0).agi
      = 200000 := by
    simp [calculate_annual_taxes, calculate_taxable_ssa, calculate_agi]
  have h0 : (calculate_annual_taxes .married_filing_jointly "CA" none 0 200000 0).state_tax
      = calculate_state_tax 200000 "CA" "single" := by
    show calculate_state_tax
      (calculate_agi 200000 (calculate_taxable_ssa 0 200000 .married_filing_jointly 0) 0 0)
      "CA" "single" = calculate_state_tax 200000 "CA" "single"
    norm_num [calculate_taxable_ssa, calculate_agi]
  rw [h0]
  simp only [calculate_state_tax]
  rw [if_neg (by norm_num)]
  have h1 : is_no_tax_state "CA".toUpper = false := by
    rw [CA_toUpper]
    unfold is_no_tax_state
    rw [CA_toUpper]
    decide
  have h2 : has_progressive_brackets "CA".toUpper = true := by
    rw [CA_toUpper]; simp [has_progressive_brackets, CA_toUpper]
  have h3 : get_progressive_brackets "CA".toUpper "single"
      = some (CA_PROGRESSIVE_BRACKETS "single") := by
    rw [CA_toUpper]; simp [get_progressive_brackets, CA_toUpper]
  rw [h1, h2, h3]
  simp only [Bool.false_eq_true, if_false, if_true]
  have h4 : (CA_PROGRESSIVE_BRACKETS "single").isEmpty = false := by decide
  rw [h4]
  simp

/-- C4 counterexample: a married-filing-jointly scenario with exactly one
person whose death year-month is June 2030 keeps status
married_filing_jointly in January 2031, although the claim requires
single for every month of years strictly greater than 2030. -/
theorem C4_one_person_counterexample :
    mfj_one_person_tracker.initial_status = FilingStatus.married_filing_jointly ∧
    tracker_death_dates mfj_one_person_tracker = [{ year := 2030, month := 6 }] ∧
    get_status mfj_one_person_tracker { year := 2031, month := 1 }
      ≠ FilingStatus.single := by
  refine ⟨rfl, rfl, ?_⟩
  decide

/-- C4 (amended): a non-married configured status is returned unchanged
for every month, and so is married_filing_jointly when the scenario has
fewer than two people, even if a death year-month exists; with
married_filing_jointly and at least two people, if Y is the earliest
death year then every month of calendar years at most Y is
married_filing_jointly and every month of strictly later years is
single. -/
theorem C4_filing_status_transition (tr : FilingStatusTracker) (ym : Ym) :
    (tr.initial_status ≠ FilingStatus.married_filing_jointly →
        get_status tr ym = tr.initial_status) ∧
    (tr.people.length < 2 → get_status tr ym = tr.initial_status) ∧
    (tr.initial_status = FilingStatus.married_filing_jointly →
      2 ≤ tr.people.length →
      ∀ Y : ℤ, Y ∈ (tracker_death_dates tr).map (fun d => d.year) →
        (∀ z ∈ (tracker_death_dates tr).map (fun d => d.year), Y ≤ z) →
        (ym.year ≤ Y → get_status tr ym = FilingStatus.married_filing_jointly) ∧
        (Y < ym.year → get_status tr ym = FilingStatus.single)) := by
  refine ⟨?_, ?_, ?_⟩
  · intro h
    simp [get_status, h]
  · intro h
    by_cases hi : tr.initial_status = FilingStatus.married_filing_jointly
    · simp [get_status, hi, h]
    · simp [get_status, hi]
  · intro hi hlen Y hYmem hYmin
    have hlen2 : ¬ tr.people.length < 2 := by omega
    constructor
    · intro hle
      have hany : (tracker_death_dates tr).any (fun d => d.year < ym.year) = false := by
        rw [List.any_eq_false]
        intro d hd
        have hz : Y ≤ d.year := hYmin d.year (List.mem_map_of_mem _ hd)
        simp only [decide_eq_true_eq]
        omega
      simp [get_status, hi, hlen2, hany]
    · intro hlt
      obtain ⟨d, hd, hdy⟩ := List.exists_of_mem_map hYmem
      have hany : (tracker_death_dates tr).any (fun d => d.year < ym.year) = true := by
        rw [List.any_eq_true]
        refine ⟨d, hd, ?_⟩
        simp only [decide_eq_true_eq]
        omega
      simp [get_status, hi, hlen2, hany]

/-- Witness for C4: a two-person married couple with deaths in June 2030
and March 2035 files jointly through December 2030 and single from
January 2031. -/
theorem C4_filing_status_transition_witness :
    (get_status
        { people := [{ person_id := "a", birth_year := 1960, birth_month := 6,
                       life_expectancy_years := some 70 },
                     { person_id := "b", birth_year := 1965, birth_month := 3,
                       life_expectancy_years := some 70 }]
          initial_status := FilingStatus.married_filing_jointly }
        { year := 2030, month := 12 } = FilingStatus.married_filing_jointly) ∧
    (get_status
        { people := [{ person_id := "a", birth_year := 1960, birth_month := 6,
                       life_expectancy_years := some 70 },
                     { person_id := "b", birth_year := 1965, birth_month := 3,
                       life_expectancy_years := some 70 }]
          initial_status := FilingStatus.married_filing_jointly }
        { year := 2031, month := 1 } = FilingStatus.single) := by
  constructor
  · exact ((C4_filing_status_transition _ _).2.2 rfl (by decide) 2030 (by decide)
      (by decide)).1 (by decide)
  · exact ((C4_filing_status_transition _ _).2.2 rfl (by decide) 2030 (by decide)
      (by decide)).2 (by decide)

/-- In an active COLA month not yet applied for the year, with a positive
rate, the step reports the stepped-up amount and records the year. -/
theorem income_cola_step (st : IncomeState) (ym : Ym)
    (hstart : month_is_before ym st.stream.start_month = false)
    (hend : ∀ e, st.stream.end_month = some e → month_is_after ym e = false)
    (hlast : ∀ y0, st.last_cola_year = some y0 → y0 ≠ ym.year)
    (hrate : 0 < st.stream.cola_percent_annual) :
    income_state_process_month st ym st.stream.cola_month
      = (st.current_amount * (1 + st.stream.cola_percent_annual),
         { stream := st.stream,
           current_amount := st.current_amount * (1 + st.stream.cola_percent_annual),
           last_cola_year := some ym.year }) := by
  have hendb : (match st.stream.end_month with
      | some e => month_is_after ym e
      | none => false) = false := by
    cases he : st.stream.end_month with
    | none => rfl
    | some e => exact hend e he
  have hlastne : ¬ st.last_cola_year = some ym.year := by
    intro h
    exact hlast ym.year h rfl
  simp only [income_state_process_month, hstart, hendb, Bool.false_eq_true, if_false,
    apply_cola_if_due, ne_eq, not_true_eq_false, if_neg hlastne, if_pos hrate, ite_false]

/-- C6: for every income stream the reported amount is 0 with no COLA
bookkeeping before start_month or after a defined end_month; in an active
COLA month not yet applied this calendar year the payment already
reflects the (1 + rate) step-up; a month that is not the COLA month, or
whose year is already recorded, reports the current amount unchanged; and
over successive active COLA months in strictly increasing years the
amount compounds multiplicatively. -/
theorem C6_income_cola_behaviour :
    (∀ (st : IncomeState) (ym : Ym) (mn : ℤ),
        month_is_before ym st.stream.start_month = true →
        income_state_process_month st ym mn = (0, st)) ∧
    (∀ (st : IncomeState) (ym : Ym) (mn : ℤ) (e : Ym),
        st.stream.end_month = some e → month_is_after ym e = true →
        income_state_process_month st ym mn = (0, st)) ∧
    (∀ (st : IncomeState) (ym : Ym),
        month_is_before ym st.stream.start_month = false →
        (∀ e, st.stream.end_month = some e → month_is_after ym e = false) →
        0 ≤ st.stream.cola_percent_annual →
        st.last_cola_year ≠ some ym.year →
        (income_state_process_month st ym st.stream.cola_month).1
          = st.current_amount * (1 + st.stream.cola_percent_annual)) ∧
    (∀ (st : IncomeState) (ym : Ym),
        month_is_before ym st.stream.start_month = false →
        (∀ e, st.stream.end_month = some e → month_is_after ym e = false) →
        st.last_cola_year = some ym.year →
        income_state_process_month st ym st.stream.cola_month
          = (st.current_amount, st)) ∧
    (∀ (st : IncomeState) (ym : Ym) (mn : ℤ),
        mn ≠ st.stream.cola_month →
        month_is_before ym st.stream.start_month = false →
        (∀ e, st.stream.end_month = some e → month_is_after ym e = false) →
        income_state_process_month st ym mn = (st.current_amount, st)) ∧
    (∀ (st : IncomeState) (ys : List ℤ),
        0 < st.stream.cola_percent_annual →
        List.Pairwise (· < ·) ys →
        (∀ y ∈ ys, ∀ y0, st.last_cola_year = some y0 → y0 < y) →
        (∀ y ∈ ys,
          month_is_before { year := y, month := st.stream.cola_month }
              st.stream.start_month = false ∧
          (∀ e, st.stream.end_month = some e →
            month_is_after { year := y, month := st.stream.cola_month } e = false)) →
        (income_run st (ys.map (fun y =>
            (({ year := y, month := st.stream.cola_month } : Ym),
              st.stream.cola_month)))).current_amount
          = st.current_amount * (1 + st.stream.cola_percent_annual) ^ ys.length) := by
  refine ⟨?_, ?_, ?_, ?_, ?_, ?_⟩
  · intro st ym mn h
    simp [income_state_process_month, h]
  · intro st ym mn e he hafter
    simp [income_state_process_month, he, hafter]
  · intro st ym hstart hend hrate hlast
    have hendb : (match st.stream.end_month with
        | some e => month_is_after ym e
        | none => false) = false := by
      cases he : st.stream.end_month with
      | none => rfl
      | some e => exact hend e he
    rcases lt_or_eq_of_le hrate with hpos | hzero
    · rw [income_cola_step st ym hstart hend (fun y0 h => by
        intro hy
        exact hlast (by rw [h, hy])) hpos]
    · have hz : ¬ (0 < st.stream.cola_percent_annual) := by
        rw [← hzero]
        exact lt_irrefl 0
      simp only [income_state_process_month, hstart, hendb, Bool.false_eq_true, if_false,
        apply_cola_if_due, ne_eq, not_true_eq_false, if_neg hlast, ite_false, if_neg hz]
      rw [← hzero]
      norm_num
  · intro st ym hstart hend hlast
    have hendb : (match st.stream.end_month with
        | some e => month_is_after ym e
        | none => false) = false := by
      cases he : st.stream.end_month with
      | none => rfl
      | some e => exact hend e he
    simp [income_state_process_month, hstart, hendb, apply_cola_if_due, hlast]
  · intro st ym mn hmn hstart hend
    have hendb : (match st.stream.end_month with
        | some e => month_is_after ym e
        | none => false) = false := by
      cases he : st.stream.end_month with
      | none => rfl
      | some e => exact hend e he
    simp [income_state_process_month, hstart, hendb, apply_cola_if_due, hmn]
  · intro st ys
    induction ys generalizing st with
    | nil => intro _ _ _ _; simp [income_run]
    | cons y ys ih =>
        intro hrate hpair hlast hact
        have hstep := income_cola_step st { year := y, month := st.stream.cola_month }
          (hact y (List.mem_cons_self y ys)).1
          (hact y (List.mem_cons_self y ys)).2
          (fun y0 h => by
            intro hy
            have := hlast y (List.mem_cons_self y ys) y0 h
            simp only at hy
            omega)
          hrate
        simp only [List.map_cons, income_run, hstep]
        have hrest := ih
          { stream := st.stream
            current_amount := st.current_amount * (1 + st.stream.cola_percent_annual)
            last_cola_year := some y }
          hrate (List.Pairwise.of_cons hpair)
          (fun z hz y0 h0 => by
            simp only [Option.some.injEq] at h0
            have hyz : y < z := (List.pairwise_cons.mp hpair).1 z hz
            omega)
          (fun z hz => hact z (List.mem_cons_of_mem y hz))
        simp only at hrest
        rw [hrest]
        simp only [List.length_cons]
        rw [pow_succ]
        ring

/-- Witness for C6: the first January already reports the stepped-up
5100. -/
theorem C6_income_cola_behaviour_witness :
    (income_state_process_month pension_income_example { year := 2026, month := 1 } 1).1
      = 5100 := by
  show (income_state_process_month pension_income_example { year := 2026, month := 1 }
    pension_income_example.stream.cola_month).1 = 5100
  have h := C6_income_cola_behaviour.2.2.1 pension_income_example
    { year := 2026, month := 1 } (by decide) (fun e he => nomatch he)
    (by norm_num [pension_income_example, init_income_state]) (by decide)
  rw [h]
  norm_num [pension_income_example, init_income_state]

theorem apply_contribution_account (ym : Ym) (st : AccountState) :
    (apply_contribution ym st).account = st.account := by
  unfold apply_contribution
  split <;> rfl

theorem apply_contribution_balance (ym : Ym) (st : AccountState) :
    (apply_contribution ym st).balance = st.balance + contribution_of st.account ym := by
  unfold apply_contribution contribution_of
  split <;> simp

theorem apply_withdrawal_snd_account (ym : Ym) (st : AccountState) :
    ((apply_withdrawal ym st).2).account = st.account := by
  simp only [apply_withdrawal]
  split
  · split <;> rfl
  · rfl

theorem apply_withdrawal_spec (ym : Ym) (st : AccountState)
    (hb : 0 ≤ st.balance) :
    (apply_withdrawal ym st).1
        = min (if should_withdraw st.account ym then st.account.monthly_withdrawal else 0)
            st.balance ∧
    ((apply_withdrawal ym st).2).balance = st.balance - (apply_withdrawal ym st).1 := by
  simp only [apply_withdrawal]
  by_cases hsw : should_withdraw st.account ym
  · rw [if_pos hsw, if_pos hsw]
    by_cases hneg : st.balance - st.account.monthly_withdrawal < 0
    · rw [if_pos hneg]
      have hlt : st.balance ≤ st.account.monthly_withdrawal := by linarith
      rw [min_eq_right hlt]
      constructor
      · show st.account.monthly_withdrawal + (st.balance - st.account.monthly_withdrawal)
            = st.balance
        ring
      · show (0 : ℚ) = st.balance
            - (st.account.monthly_withdrawal + (st.balance - st.account.monthly_withdrawal))
        ring
    · rw [if_neg hneg]
      have hge : st.account.monthly_withdrawal ≤ st.balance := by linarith
      rw [min_eq_left hge]
      exact ⟨rfl, rfl⟩
  · rw [if_neg hsw, if_neg hsw, min_eq_left hb]
    exact ⟨rfl, by show st.balance = st.balance - 0; ring⟩

/-- With unique account ids and at most one flagged account (the model
invariant of spec section 3), deposit_surplus adds the amount, clamped at
zero, to exactly the flagged account and leaves the others untouched. -/
theorem deposit_surplus_map (s : ℚ) :
    ∀ l : List AccountState,
      (l.map (fun st => st.account.account_id)).Nodup →
      List.Pairwise (fun a b =>
        ¬(a.account.receives_surplus = true ∧ b.account.receives_surplus = true)) l →
      deposit_surplus s l
        = l.map (fun st =>
            if st.account.receives_surplus then
              { st with balance := if st.balance + s < 0 then 0 else st.balance + s }
            else st) := by
  intro l
  induction l with
  | nil => intro _ _; rfl
  | cons st rest ih =>
      intro hnodup hpair
      have hpairhead := (List.pairwise_cons.mp hpair).1
      have hpairtail := (List.pairwise_cons.mp hpair).2
      by_cases hflag : st.account.receives_surplus = true
      · have hfind : (st :: rest).find? (fun x => x.account.receives_surplus) = some st :=
          List.find?_cons_of_pos _ hflag
        have hrest_id : ∀ b ∈ rest,
            (if b.account.receives_surplus then
              { b with balance := if b.balance + s < 0 then 0 else b.balance + s }
            else b) = b := by
          intro b hbmem
          have : ¬ b.account.receives_surplus = true := fun hb =>
            hpairhead b hbmem ⟨hflag, hb⟩
          rw [if_neg this]
        simp only [deposit_surplus, hfind, deposit_first, if_pos rfl, List.map_cons,
          if_pos hflag]
        rw [if_pos trivial, List.map_congr_left hrest_id, List.map_id']
      · have hfind : (st :: rest).find? (fun x => x.account.receives_surplus)
            = rest.find? (fun x => x.account.receives_surplus) := by
          rw [List.find?_cons_of_neg]
          simpa using hflag
        have hihyp := ih (List.Nodup.of_cons hnodup) hpairtail
        cases hfr : rest.find? (fun x => x.account.receives_surplus) with
        | none =>
            have hnone : ∀ b ∈ rest, ¬ b.account.receives_surplus = true := by
              intro b hbmem hb
              have := List.find?_eq_none.mp hfr b hbmem
              simp [hb] at this
            simp only [deposit_surplus, hfind, hfr, List.map_cons, if_neg hflag]
            have hrest_id : ∀ b ∈ rest,
                (if b.account.receives_surplus then
                  { b with balance := if b.balance + s < 0 then 0 else b.balance + s }
                else b) = b := by
              intro b hbmem
              rw [if_neg (hnone b hbmem)]
            rw [List.map_congr_left hrest_id, List.map_id']
        | some stf =>
            have hmem : stf ∈ rest := List.mem_of_find?_eq_some hfr
            have hne : ¬ st.account.account_id = stf.account.account_id := by
              intro he
              have h1 : st.account.account_id ∉
                  rest.map (fun x => x.account.account_id) :=
                (List.nodup_cons.mp hnodup).1
              exact h1 (he ▸ List.mem_map_of_mem _ hmem)
            simp only [deposit_surplus, hfind, hfr, deposit_first, if_neg hne,
              List.map_cons, if_neg hflag]
            simp only [deposit_surplus, hfr] at hihyp
            rw [hihyp]

/-- Combined effect of the contribution and withdrawal steps on one
account state. -/
theorem account_state_after_withdrawal (ym : Ym) (st : AccountState)
    (hb : 0 ≤ st.balance) (hc0 : 0 ≤ st.account.monthly_contribution) :
    ((apply_withdrawal ym (apply_contribution ym st)).2).account = st.account ∧
    ((apply_withdrawal ym (apply_contribution ym st)).2).balance
        = st.balance + contribution_of st.account ym - withdrawal_of st ym ∧
    0 ≤ ((apply_withdrawal ym (apply_contribution ym st)).2).balance ∧
    (apply_withdrawal ym (apply_contribution ym st)).1 = withdrawal_of st ym := by
  have hacc1 : (apply_contribution ym st).account = st.account :=
    apply_contribution_account ym st
  have hcontr : 0 ≤ contribution_of st.account ym := by
    unfold contribution_of
    split
    · exact hc0
    · exact le_refl 0
  have hb2 : 0 ≤ (apply_contribution ym st).balance := by
    rw [apply_contribution_balance]
    exact add_nonneg hb hcontr
  have hspec := apply_withdrawal_spec ym (apply_contribution ym st) hb2
  have hw1 : (apply_withdrawal ym (apply_contribution ym st)).1 = withdrawal_of st ym := by
    rw [hspec.1, hacc1, apply_contribution_balance]
    rfl
  refine ⟨?_, ?_, ?_, hw1⟩
  · rw [apply_withdrawal_snd_account, hacc1]
  · rw [hspec.2, hw1, apply_contribution_balance]
  · rw [hspec.2, hspec.1, hacc1, apply_contribution_balance]
    have := min_le_right
      (if should_withdraw st.account ym then st.account.monthly_withdrawal else 0)
      (st.balance + contribution_of st.account ym)
    linarith

/-- Account preservation through the contribution and withdrawal steps,
with no side conditions. -/
theorem withdrawal_after_contribution_account (ym : Ym) (st : AccountState) :
    ((apply_withdrawal ym (apply_contribution ym st)).2).account = st.account := by
  rw [apply_withdrawal_snd_account, apply_contribution_account]

theorem accountState_ext {a b : AccountState} (h1 : a.account = b.account)
    (h2 : a.balance = b.balance) : a = b := by
  cases a
  cases b
  simp_all

/-- Growth applied to the post-deposit state produces the closed-form
model balance: the first part covers the nonzero-surplus path through
deposit_surplus, the second the zero-surplus path where no deposit call
happens. -/
theorem account_growth_model (ym : Ym) (s : ℚ) (st : AccountState)
    (hb : 0 ≤ st.balance) (hc0 : 0 ≤ st.account.monthly_contribution) :
    (s ≠ 0 →
      apply_growth
          (if ((apply_withdrawal ym (apply_contribution ym st)).2).account.receives_surplus
              = true then
            { (apply_withdrawal ym (apply_contribution ym st)).2 with
              balance :=
                if ((apply_withdrawal ym (apply_contribution ym st)).2).balance + s < 0
                then 0
                else ((apply_withdrawal ym (apply_contribution ym st)).2).balance + s }
          else (apply_withdrawal ym (apply_contribution ym st)).2)
        = account_month_model ym s st) ∧
    (s = 0 →
      apply_growth ((apply_withdrawal ym (apply_contribution ym st)).2)
        = account_month_model ym s st) := by
  obtain ⟨hacc, hbalm, hnn, hwd⟩ := account_state_after_withdrawal ym st hb hc0
  have hmodel_acc : (account_month_model ym s st).account = st.account := rfl
  have hmodel_bal : (account_month_model ym s st).balance
      = max 0 (st.balance + contribution_of st.account ym - withdrawal_of st ym
          + surplus_share s st.account) * (1 + st.account.monthly_return_rate) := rfl
  have hite : ∀ x : ℚ, (if x < 0 then (0 : ℚ) else x) = max 0 x := by
    intro x
    by_cases hx : x < 0
    · rw [if_pos hx, eq_comm]
      exact max_eq_left (le_of_lt hx)
    · rw [if_neg hx, eq_comm]
      exact max_eq_right (not_lt.mp hx)
  constructor
  · intro hs0
    by_cases hfl : st.account.receives_surplus = true
    · rw [if_pos (by rw [hacc]; exact hfl)]
      have hshare : surplus_share s st.account = s := if_pos ⟨hs0, hfl⟩
      apply accountState_ext
      · rw [hmodel_acc]
        exact hacc
      · show (if ((apply_withdrawal ym (apply_contribution ym st)).2).balance + s < 0
            then (0 : ℚ)
            else ((apply_withdrawal ym (apply_contribution ym st)).2).balance + s)
            * (1 + ((apply_withdrawal ym (apply_contribution ym st)).2).account.monthly_return_rate)
            = (account_month_model ym s st).balance
        rw [hmodel_bal, hacc, hbalm, hshare, hite]
    · rw [if_neg (by rw [hacc]; exact hfl)]
      have hshare : surplus_share s st.account = 0 := if_neg (fun hand => hfl hand.2)
      apply accountState_ext
      · rw [hmodel_acc]
        exact hacc
      · show ((apply_withdrawal ym (apply_contribution ym st)).2).balance
            * (1 + ((apply_withdrawal ym (apply_contribution ym st)).2).account.monthly_return_rate)
            = (account_month_model ym s st).balance
        rw [hmodel_bal, hacc, hbalm, hshare, add_zero, eq_comm]
        congr 1
        apply max_eq_right
        rw [← hbalm]
        exact hnn
  · intro hs0
    have hshare : surplus_share s st.account = 0 := if_neg (fun hand => hand.1 hs0)
    apply accountState_ext
    · rw [hmodel_acc]
      exact hacc
    · show ((apply_withdrawal ym (apply_contribution ym st)).2).balance
          * (1 + ((apply_withdrawal ym (apply_contribution ym st)).2).account.monthly_return_rate)
          = (account_month_model ym s st).balance
      rw [hmodel_bal, hacc, hbalm, hshare, add_zero, eq_comm]
      congr 1
      apply max_eq_right
      rw [← hbalm]
      exact hnn

/-- C1 (amended): AccountProcessor.process_month applies contribution,
clamped withdrawal, clamped surplus deposit, growth in that order, so
every account ends the month at
max(0, start + contribution - withdrawal + surplus) x (1 + monthly rate),
where the withdrawal reported is the configured amount clamped to the
available post-contribution balance (exactly the available balance when
the configured amount exceeds it) and the surplus deposit, nonzero only
on the flagged account, is itself clamped at zero before growth; with a
monthly rate of at least -1 the balance never becomes negative. -/
theorem C1_account_process_month (states : List AccountState) (ym : Ym) (s : ℚ)
    (hids : (states.map (fun st => st.account.account_id)).Nodup)
    (hflag : List.Pairwise (fun a b =>
        ¬(a.account.receives_surplus = true ∧ b.account.receives_surplus = true)) states)
    (hbal : ∀ st ∈ states, 0 ≤ st.balance)
    (hc : ∀ st ∈ states, 0 ≤ st.account.monthly_contribution) :
    (account_process_month states ym s).1
        = states.map (fun st => (st.account.account_id, withdrawal_of st ym)) ∧
    (account_process_month states ym s).2.2 = states.map (account_month_model ym s) ∧
    (account_process_month states ym s).2.1
        = states.map (fun st =>
            (st.account.account_id, (account_month_model ym s st).balance)) ∧
    (∀ st ∈ states, 0 ≤ 1 + st.account.monthly_return_rate →
        0 ≤ (account_month_model ym s st).balance) := by
  have hkey : (account_process_month states ym s).2.2
      = states.map (account_month_model ym s) := by
    simp only [account_process_month, List.map_map, Function.comp_def]
    by_cases hs0 : s = 0
    · rw [if_neg (not_not_intro hs0), List.map_map]
      apply List.map_congr_left
      intro st hst
      exact (account_growth_model ym s st (hbal st hst) (hc st hst)).2 hs0
    · rw [if_pos hs0]
      have hFacc : ∀ st : AccountState,
          ((apply_withdrawal ym (apply_contribution ym st)).2).account = st.account :=
        withdrawal_after_contribution_account ym
      have hnodup2 : ((states.map
          (fun st => (apply_withdrawal ym (apply_contribution ym st)).2)).map
            (fun st => st.account.account_id)).Nodup := by
        rw [List.map_map]
        have he : ((fun st : AccountState => st.account.account_id) ∘
            (fun st => (apply_withdrawal ym (apply_contribution ym st)).2))
            = fun st : AccountState => st.account.account_id :=
          funext fun st => by
            show ((apply_withdrawal ym (apply_contribution ym st)).2).account.account_id
              = st.account.account_id
            rw [hFacc]
        rw [he]
        exact hids
      have hpair2 : List.Pairwise (fun a b =>
          ¬(a.account.receives_surplus = true ∧ b.account.receives_surplus = true))
          (states.map (fun st => (apply_withdrawal ym (apply_contribution ym st)).2)) := by
        rw [List.pairwise_map]
        refine hflag.imp ?_
        intro a b h
        rw [hFacc a, hFacc b]
        exact h
      rw [deposit_surplus_map s _ hnodup2 hpair2, List.map_map, List.map_map]
      apply List.map_congr_left
      intro st hst
      show apply_growth
          (if ((apply_withdrawal ym (apply_contribution ym st)).2).account.receives_surplus
              = true then
            { (apply_withdrawal ym (apply_contribution ym st)).2 with
              balance :=
                if ((apply_withdrawal ym (apply_contribution ym st)).2).balance + s < 0
                then 0
                else ((apply_withdrawal ym (apply_contribution ym st)).2).balance + s }
          else (apply_withdrawal ym (apply_contribution ym st)).2)
        = account_month_model ym s st
      exact (account_growth_model ym s st (hbal st hst) (hc st hst)).1 hs0
  refine ⟨?_, hkey, ?_, ?_⟩
  · simp only [account_process_month, List.map_map, Function.comp_def]
    apply List.map_congr_left
    intro st hst
    obtain ⟨hacc, hbalm, hnn, hwd⟩ :=
      account_state_after_withdrawal ym st (hbal st hst) (hc st hst)
    show ((apply_contribution ym st).account.account_id,
        (apply_withdrawal ym (apply_contribution ym st)).1)
      = (st.account.account_id, withdrawal_of st ym)
    rw [Prod.mk.injEq]
    exact ⟨by rw [apply_contribution_account], hwd⟩
  · show ((account_process_month states ym s).2.2).map
        (fun st => (st.account.account_id, st.balance)) = _
    rw [hkey, List.map_map]
    apply List.map_congr_left
    intro st hst
    rfl
  · intro st hst hr
    show 0 ≤ max 0 (st.balance + contribution_of st.account ym - withdrawal_of st ym
        + surplus_share s st.account) * (1 + st.account.monthly_return_rate)
    exact mul_nonneg (le_max_left 0 _) hr

/-- C1 counterexample: with a prior-month deficit of 200 deposited into a
flagged account holding 100 (zero rate, no contribution or withdrawal),
process_month ends the month at balance 0, while the claimed formula
(start + contribution - withdrawal + surplus) x (1 + monthly_rate)
yields -100; the surplus deposit is clamped at zero, which the claim
omits. -/
theorem C1_surplus_clamp_counterexample :
    ((account_process_month [init_account_state surplus_account_example]
        { year := 2026, month := 1 } (-200)).2.2.map (fun st => st.balance)) = [0] ∧
    (100 + 0 - 0 + (-200) : ℚ) * (1 + 0) = -100 ∧
    (0 : ℚ) ≠ -100 := by
  refine ⟨?_, by norm_num, by norm_num⟩
  norm_num [account_process_month, init_account_state, surplus_account_example,
    apply_contribution, should_contribute, apply_withdrawal, should_withdraw,
    deposit_surplus, List.find?, deposit_first, apply_growth]

/-- Witness for C1 on the flagged example account: the theorem applied at
a concrete deficit of 200 against a balance of 100. -/
theorem C1_account_process_month_witness :
    (account_process_month [init_account_state surplus_account_example]
        { year := 2026, month := 1 } (-200)).2.2
      = [account_month_model { year := 2026, month := 1 } (-200)
          (init_account_state surplus_account_example)] := by
  have h := C1_account_process_month [init_account_state surplus_account_example]
    { year := 2026, month := 1 } (-200)
    (by decide)
    (by decide)
    (by
      intro st hst
      rw [List.mem_singleton] at hst
      subst hst
      norm_num [init_account_state, surplus_account_example])
    (by
      intro st hst
      rw [List.mem_singleton] at hst
      subst hst
      norm_num [init_account_state, surplus_account_example])
  exact h.2.1

theorem dict_lookup_dict_add_same (k : String) (x : ℚ) :
    ∀ l : List (String × ℚ),
      dict_lookup k (dict_add k x l) = (dict_lookup k l).map (fun v => v + x) := by
  intro l
  induction l with
  | nil => rfl
  | cons p l ih =>
      by_cases hpk : p.1 == k
      · simp only [dict_add, dict_lookup, List.map_cons, List.find?_cons, hpk, if_pos]
        simp [hpk]
      · simp only [dict_add, dict_lookup, List.map_cons, if_neg hpk]
        simp only [dict_lookup, dict_add] at ih
        simp only [List.find?_cons]
        rw [Bool.not_eq_true] at hpk
        simp only [hpk]
        exact ih

theorem dict_lookup_dict_add_other (k k2 : String) (x : ℚ) (h : k2 ≠ k) :
    ∀ l : List (String × ℚ),
      dict_lookup k2 (dict_add k x l) = dict_lookup k2 l := by
  intro l
  induction l with
  | nil => rfl
  | cons p l ih =>
      by_cases hpk : p.1 == k
      · have hp1 : p.1 = k := by simpa using hpk
        have hp2 : (p.1 == k2) = false := by
          rw [hp1]
          simpa using fun he => h he.symm
        simp only [dict_add, List.map_cons, if_pos hpk, dict_lookup, List.find?_cons]
        simp only [hp2]
        simp only [dict_lookup, dict_add] at ih
        exact ih
      · simp only [dict_add, List.map_cons, if_neg hpk, dict_lookup, List.find?_cons]
        by_cases hp2 : p.1 == k2
        · simp [hp2]
        · rw [Bool.not_eq_true] at hp2
          simp only [hp2]
          simp only [dict_lookup, dict_add] at ih
          exact ih

theorem apply_surplus_aux_get (aid bucket : String) :
    ∀ (mps : List MonthlyProjection) (nps : List NetIncomeProjection)
      (cum0 : ℚ) (i : ℕ),
      (apply_surplus_aux aid bucket cum0 mps nps)[i]?
        = if i < nps.length then
            (mps[i]?).map (surplus_month_update aid bucket
              (cum0 + ((nps.take (i + 1)).map (fun np => np.surplus_deficit)).sum))
          else mps[i]? := by
  intro mps
  induction mps with
  | nil =>
      intro nps cum0 i
      simp only [apply_surplus_aux]
      split <;> simp
  | cons mp mps ih =>
      intro nps cum0 i
      cases nps with
      | nil =>
          simp only [apply_surplus_aux, List.length_nil]
          rw [if_neg (by omega)]
      | cons np nps =>
          simp only [apply_surplus_aux]
          cases i with
          | zero =>
              rw [if_pos (by simp)]
              simp only [List.getElem?_cons_zero, List.take_succ_cons, List.take_zero,
                List.map_cons, List.map_nil, List.sum_cons, List.sum_nil, Option.map_some]
              rw [add_zero]
              rfl
          | succ j =>
              simp only [List.getElem?_cons_succ]
              rw [ih nps (cum0 + np.surplus_deficit) j]
              simp only [List.length_cons, List.take_succ_cons, List.map_cons,
                List.sum_cons]
              by_cases hj : j < nps.length
              · rw [if_pos hj, if_pos (by omega)]
                congr 2
                rw [add_assoc]
              · rw [if_neg hj, if_neg (by omega)]

/-- C7: run over chronologically ordered projections, the surplus pass
leaves every month untouched when no account is flagged; with a flagged
account, the m-th month within range of both lists becomes exactly the
original month with the running surplus total added to the flagged
account's balance entry, to total_investments and to the flagged
account's tax-bucket entry (no growth applied to the addition), while
every other field, every other dict entry, and every month beyond the
shorter list stay unchanged. -/
theorem C7_apply_surplus_frame (mps : List MonthlyProjection)
    (nps : List NetIncomeProjection) (accounts : List InvestmentAccount) :
    (accounts.find? (fun a => a.receives_surplus) = none →
        apply_surplus_to_accounts mps nps accounts = mps) ∧
    (∀ acc, accounts.find? (fun a => a.receives_surplus) = some acc →
      (∀ i : ℕ, nps.length ≤ i →
        (apply_surplus_to_accounts mps nps accounts)[i]? = mps[i]?) ∧
      (∀ i : ℕ, i < nps.length →
        (apply_surplus_to_accounts mps nps accounts)[i]?
          = (mps[i]?).map (surplus_month_update acc.account_id acc.tax_bucket.value
              (((nps.take (i + 1)).map (fun np => np.surplus_deficit)).sum)))) ∧
    (∀ (aid bucket : String) (cum : ℚ) (mp : MonthlyProjection),
      (surplus_month_update aid bucket cum mp).month = mp.month ∧
      (surplus_month_update aid bucket cum mp).income_by_stream = mp.income_by_stream ∧
      (surplus_month_update aid bucket cum mp).withdrawals_by_account
        = mp.withdrawals_by_account ∧
      (surplus_month_update aid bucket cum mp).withdrawals_by_tax_bucket
        = mp.withdrawals_by_tax_bucket ∧
      (surplus_month_update aid bucket cum mp).total_gross_cashflow
        = mp.total_gross_cashflow ∧
      (surplus_month_update aid bucket cum mp).filing_status = mp.filing_status ∧
      (surplus_month_update aid bucket cum mp).total_investments
        = mp.total_investments + cum ∧
      dict_lookup aid (surplus_month_update aid bucket cum mp).balances_by_account
        = (dict_lookup aid mp.balances_by_account).map (fun v => v + cum) ∧
      (∀ k, k ≠ aid →
        dict_lookup k (surplus_month_update aid bucket cum mp).balances_by_account
          = dict_lookup k mp.balances_by_account) ∧
      dict_lookup bucket (surplus_month_update aid bucket cum mp).balances_by_tax_bucket
        = (dict_lookup bucket mp.balances_by_tax_bucket).map (fun v => v + cum) ∧
      (∀ k, k ≠ bucket →
        dict_lookup k (surplus_month_update aid bucket cum mp).balances_by_tax_bucket
          = dict_lookup k mp.balances_by_tax_bucket)) := by
  refine ⟨?_, ?_, ?_⟩
  · intro h
    simp [apply_surplus_to_accounts, h]
  · intro acc hacc
    constructor
    · intro i hi
      simp only [apply_surplus_to_accounts, hacc]
      rw [apply_surplus_aux_get, if_neg (by omega)]
    · intro i hi
      simp only [apply_surplus_to_accounts, hacc]
      rw [apply_surplus_aux_get, if_pos hi, zero_add]
  · intro aid bucket cum mp
    have hcl : ∀ (k : String) (l : List (String × ℚ)),
        dict_contains k l = false → dict_lookup k l = none := by
      intro k l h
      have hfind : l.find? (fun p => p.1 == k) = none := by
        rw [List.find?_eq_none]
        intro p hp
        exact List.any_eq_false.mp h p hp
      unfold dict_lookup
      rw [hfind]
      rfl
    refine ⟨rfl, rfl, rfl, rfl, rfl, rfl, rfl, ?_, ?_, ?_, ?_⟩
    · show dict_lookup aid
          (if dict_contains aid mp.balances_by_account then
            dict_add aid cum mp.balances_by_account
          else mp.balances_by_account) = _
      by_cases hcon : dict_contains aid mp.balances_by_account
      · rw [if_pos hcon]
        exact dict_lookup_dict_add_same aid cum mp.balances_by_account
      · rw [if_neg hcon, hcl aid _ (Bool.not_eq_true _ ▸ hcon)]
        rfl
    · intro k hk
      show dict_lookup k
          (if dict_contains aid mp.balances_by_account then
            dict_add aid cum mp.balances_by_account
          else mp.balances_by_account) = _
      by_cases hcon : dict_contains aid mp.balances_by_account
      · rw [if_pos hcon]
        exact dict_lookup_dict_add_other aid k cum hk mp.balances_by_account
      · rw [if_neg hcon]
    · show dict_lookup bucket
          (if dict_contains bucket mp.balances_by_tax_bucket then
            dict_add bucket cum mp.balances_by_tax_bucket
          else mp.balances_by_tax_bucket) = _
      by_cases hcon : dict_contains bucket mp.balances_by_tax_bucket
      · rw [if_pos hcon]
        exact dict_lookup_dict_add_same bucket cum mp.balances_by_tax_bucket
      · rw [if_neg hcon, hcl bucket _ (Bool.not_eq_true _ ▸ hcon)]
        rfl
    · intro k hk
      show dict_lookup k
          (if dict_contains bucket mp.balances_by_tax_bucket then
            dict_add bucket cum mp.balances_by_tax_bucket
          else mp.balances_by_tax_bucket) = _
      by_cases hcon : dict_contains bucket mp.balances_by_tax_bucket
      · rw [if_pos hcon]
        exact dict_lookup_dict_add_other bucket k cum hk mp.balances_by_tax_bucket
      · rw [if_neg hcon]

/-- Witness for C7: one flagged account, one month, deficit 200. -/
theorem C7_apply_surplus_frame_witness :
    (apply_surplus_to_accounts [example_monthly_projection]
        [example_net_income_projection] [surplus_account_example])[0]?
      = (([example_monthly_projection][0]?).map
          (surplus_month_update surplus_account_example.account_id
            surplus_account_example.tax_bucket.value
            ((([example_net_income_projection].take 1).map
              (fun np => np.surplus_deficit)).sum))) := by
  have hfind : [surplus_account_example].find? (fun a => a.receives_surplus)
      = some surplus_account_example :=
    List.find?_cons_of_pos _ rfl
  exact ((C7_apply_surplus_frame _ _ _).2.1 surplus_account_example hfind).2 0 (by norm_num)

theorem deposit_first_nonneg (fid : String) (amount : ℚ) :
    ∀ states : List AccountState,
      (∀ st ∈ states, 0 ≤ st.balance) →
      ∀ st2 ∈ deposit_first fid amount states, 0 ≤ st2.balance := by
  intro states
  induction states with
  | nil => intro _ st2 h2; cases h2
  | cons st rest ih =>
      intro h st2 h2
      by_cases hid : st.account.account_id = fid
      · rw [deposit_first, if_pos hid] at h2
        rcases List.mem_cons.mp h2 with he | hm
        · subst he
          show (0 : ℚ) ≤ if st.balance + amount < 0 then 0 else st.balance + amount
          by_cases hneg : st.balance + amount < 0
          · rw [if_pos hneg]
          · rw [if_neg hneg]
            exact not_lt.mp hneg
        · exact h st2 (List.mem_cons_of_mem st hm)
      · rw [deposit_first, if_neg hid] at h2
        rcases List.mem_cons.mp h2 with he | hm
        · subst he
          exact h st2 (List.mem_cons_self st2 rest)
        · exact ih (fun x hx => h x (List.mem_cons_of_mem st hx)) st2 hm

/-- C8: the non-negativity kept by the engine's deposit_surplus (a
deficit deposit clamps the flagged account at zero) is not kept by the
published surplus pass: with the flagged account at 100 and a cumulative
deficit of 200, the projection list returned by apply_surplus_to_accounts
reports balance -100 for the account and total_investments -100. -/
theorem C8_surplus_pass_breaks_nonneg :
    (∀ (amount : ℚ) (states : List AccountState),
        (∀ st ∈ states, 0 ≤ st.balance) →
        ∀ st2 ∈ deposit_surplus amount states, 0 ≤ st2.balance) ∧
    (∃ mp2, (apply_surplus_to_accounts [example_monthly_projection]
          [example_net_income_projection] [surplus_account_example])[0]? = some mp2 ∧
        dict_lookup "sav" mp2.balances_by_account = some (-100) ∧
        mp2.total_investments = (-100 : ℚ) ∧ (-100 : ℚ) < 0) := by
  constructor
  · intro amount states h st2 h2
    unfold deposit_surplus at h2
    cases hf : states.find? (fun st => st.account.receives_surplus) with
    | none =>
        rw [hf] at h2
        exact h st2 h2
    | some stf =>
        rw [hf] at h2
        exact deposit_first_nonneg stf.account.account_id amount states h st2 h2
  · refine ⟨surplus_month_update "sav" "taxable" (-200) example_monthly_projection,
      ?_, ?_, ?_, by norm_num⟩
    · have hfind : [surplus_account_example].find? (fun a => a.receives_surplus)
          = some surplus_account_example :=
        List.find?_cons_of_pos _ rfl
      simp only [apply_surplus_to_accounts, hfind, apply_surplus_aux]
      show some (surplus_month_update "sav" "taxable"
          (0 + example_net_income_projection.surplus_deficit) example_monthly_projection)
        = _
      norm_num [example_net_income_projection]
    · norm_num [surplus_month_update, example_monthly_projection, dict_contains,
        dict_add, dict_lookup, List.find?]
    · norm_num [surplus_month_update, example_monthly_projection]

/-- Witness for C8: depositing a deficit of 200 into the flagged account
holding 100 leaves the engine-side balance clamped at zero, hence
non-negative. -/
theorem C8_surplus_pass_breaks_nonneg_witness :
    (0 : ℚ) ≤ ({ account := surplus_account_example, balance := 0 } : AccountState).balance := by
  have hres : deposit_surplus (-200) [init_account_state surplus_account_example]
      = [{ account := surplus_account_example, balance := 0 }] := by
    have hfind : [init_account_state surplus_account_example].find?
        (fun st => st.account.receives_surplus)
        = some (init_account_state surplus_account_example) :=
      List.find?_cons_of_pos _ rfl
    simp only [deposit_surplus, hfind, deposit_first, if_pos rfl]
    norm_num [init_account_state, surplus_account_example]
  exact C8_surplus_pass_breaks_nonneg.1 (-200)
    [init_account_state surplus_account_example]
    (by
      intro st hst
      rw [List.mem_singleton] at hst
      subst hst
      norm_num [init_account_state, surplus_account_example])
    _ (by rw [hres]; exact List.mem_singleton_self _)

theorem reduce_amounts_set_end (s : BudgetSettings) (f : BudgetCategory → Option Ym)
    (amounts : List (String × ℚ)) :
    reduce_amounts (set_end_months s f) amounts = reduce_amounts s amounts := by
  simp only [reduce_amounts, set_end_months]
  rw [List.foldl_map]

theorem inflation_set_end (f : BudgetCategory → Option Ym) (st : BudgetState)
    (ym : Ym) (mn : ℤ) :
    apply_inflation_if_due (state_set_end_months f st) ym mn
      = state_set_end_months f (apply_inflation_if_due st ym mn) := by
  unfold apply_inflation_if_due state_set_end_months set_end_months
  dsimp only
  by_cases h1 : mn ≠ 1
  · rw [if_pos h1, if_pos h1]
  · rw [if_neg h1, if_neg h1]
    by_cases h2 : st.last_inflation_year = some ym.year
    · rw [if_pos h2, if_pos h2]
    · rw [if_neg h2, if_neg h2]
      by_cases h3 : 0 < st.settings.inflation_annual_percent
      · rw [if_pos h3, if_pos h3]
      · rw [if_neg h3, if_neg h3]

theorem survivor_set_end (f : BudgetCategory → Option Ym) (st : BudgetState)
    (ym : Ym) (people : List Person) :
    apply_survivor_reduction_if_needed (state_set_end_months f st) ym people
      = state_set_end_months f (apply_survivor_reduction_if_needed st ym people) := by
  unfold apply_survivor_reduction_if_needed
  dsimp only [state_set_end_months]
  by_cases h1 : st.survivor_reduction_applied = true
  · rw [if_pos h1, if_pos h1]
  · rw [if_neg h1, if_neg h1]
    by_cases h2 : people.length < 2
    · rw [if_pos h2, if_pos h2]
    · rw [if_neg h2, if_neg h2]
      by_cases h3 : ¬ (people.any (fun p =>
          match death_year_month p with
          | some d => ym_le d ym
          | none => false)) = true
      · rw [if_pos h3, if_pos h3]
      · rw [if_neg h3, if_neg h3]
        by_cases h4 : st.settings.survivor_flexible_reduction_percent ≤ 0
        · rw [if_pos (show
              (set_end_months st.settings f).survivor_flexible_reduction_percent ≤ 0
              from h4), if_pos h4]
        · rw [if_neg (show
              ¬ (set_end_months st.settings f).survivor_flexible_reduction_percent ≤ 0
              from h4), if_neg h4, reduce_amounts_set_end]

theorem budget_process_set_end (f : BudgetCategory → Option Ym)
    (people : List Person) (st : BudgetState) (ym : Ym) (mn : ℤ) :
    budget_process_month people (state_set_end_months f st) ym mn
      = ((budget_process_month people st ym mn).1,
         state_set_end_months f (budget_process_month people st ym mn).2) := by
  simp only [budget_process_month]
  rw [inflation_set_end, survivor_set_end]
  rfl

theorem budget_run_set_end (f : BudgetCategory → Option Ym) (people : List Person) :
    ∀ (months : List (Ym × ℤ)) (st : BudgetState),
      budget_run people (state_set_end_months f st) months
        = ((budget_run people st months).1,
           state_set_end_months f (budget_run people st months).2) := by
  intro months
  induction months with
  | nil => intro st; rfl
  | cons m rest ih =>
      intro st
      match m with
      | (ym, mn) =>
          simp only [budget_run, budget_process_set_end, ih]

theorem keys_of_key_preserving_map (g : String × ℚ → String × ℚ)
    (hg : ∀ p, (g p).1 = p.1) (l : List (String × ℚ)) :
    (l.map g).map (fun p => p.1) = l.map (fun p => p.1) := by
  rw [List.map_map]
  apply List.map_congr_left
  intro p _
  exact hg p

theorem dict_mul_keys (k : String) (f : ℚ) (l : List (String × ℚ)) :
    (dict_mul k f l).map (fun p => p.1) = l.map (fun p => p.1) := by
  apply keys_of_key_preserving_map
  intro p
  by_cases h : p.1 == k
  · rw [if_pos h]
  · rw [if_neg h]

theorem foldl_keys_preserved
    (step : List (String × ℚ) → BudgetCategory → List (String × ℚ))
    (hstep : ∀ acc c, (step acc c).map (fun p => p.1) = acc.map (fun p => p.1)) :
    ∀ (cats : List BudgetCategory) (l : List (String × ℚ)),
      ((cats.foldl step l).map (fun p => p.1)) = l.map (fun p => p.1) := by
  intro cats
  induction cats with
  | nil => intro l; rfl
  | cons c cats ih =>
      intro l
      rw [List.foldl_cons, ih, hstep]

theorem reduce_amounts_keys (s : BudgetSettings) (l : List (String × ℚ)) :
    (reduce_amounts s l).map (fun p => p.1) = l.map (fun p => p.1) := by
  unfold reduce_amounts
  apply foldl_keys_preserved
  intro acc c
  by_cases h1 : c.include_flag = false
  · rw [if_pos h1]
  · rw [if_neg h1]
    by_cases h2 : s.survivor_reduction_mode = SurvivorReductionMode.all
    · rw [if_pos h2, dict_mul_keys]
    · rw [if_neg h2]
      by_cases h3 : c.category_type = CategoryType.flexible
      · rw [if_pos h3, dict_mul_keys]
      · rw [if_neg h3]

theorem inflation_keys (st : BudgetState) (ym : Ym) (mn : ℤ) :
    (apply_inflation_if_due st ym mn).current_amounts.map (fun p => p.1)
      = st.current_amounts.map (fun p => p.1) := by
  unfold apply_inflation_if_due
  by_cases h1 : mn ≠ 1
  · rw [if_pos h1]
  · rw [if_neg h1]
    by_cases h2 : st.last_inflation_year = some ym.year
    · rw [if_pos h2]
    · rw [if_neg h2]
      by_cases h3 : 0 < st.settings.inflation_annual_percent
      · rw [if_pos h3]
        exact keys_of_key_preserving_map
          (fun p => (p.1, p.2 * (1 + st.settings.inflation_annual_percent)))
          (fun p => rfl) st.current_amounts
      · rw [if_neg h3]

theorem survivor_keys (st : BudgetState) (ym : Ym) (people : List Person) :
    (apply_survivor_reduction_if_needed st ym people).current_amounts.map (fun p => p.1)
      = st.current_amounts.map (fun p => p.1) := by
  unfold apply_survivor_reduction_if_needed
  by_cases h1 : st.survivor_reduction_applied = true
  · rw [if_pos h1]
  · rw [if_neg h1]
    by_cases h2 : people.length < 2
    · rw [if_pos h2]
    · rw [if_neg h2]
      by_cases h3 : ¬ (people.any (fun p =>
          match death_year_month p with
          | some d => ym_le d ym
          | none => false)) = true
      · rw [if_pos h3]
      · rw [if_neg h3]
        by_cases h4 : st.settings.survivor_flexible_reduction_percent ≤ 0
        · rw [if_pos h4]
        · rw [if_neg h4]
          exact reduce_amounts_keys st.settings st.current_amounts

theorem budget_process_keys (people : List Person) (st : BudgetState) (ym : Ym)
    (mn : ℤ) :
    ((budget_process_month people st ym mn).2).current_amounts.map (fun p => p.1)
      = st.current_amounts.map (fun p => p.1) := by
  simp only [budget_process_month]
  rw [survivor_keys, inflation_keys]

theorem budget_run_keys (people : List Person) :
    ∀ (months : List (Ym × ℤ)) (st : BudgetState),
      ((budget_run people st months).2).current_amounts.map (fun p => p.1)
        = st.current_amounts.map (fun p => p.1) := by
  intro months
  induction months with
  | nil => intro st; rfl
  | cons m rest ih =>
      intro st
      match m with
      | (ym, mn) =>
          simp only [budget_run]
          rw [ih, budget_process_keys]

theorem init_budget_keys (cats : List BudgetCategory) :
    ((cats.filterMap (fun c =>
        if c.include_flag then some (c.category_name, c.monthly_amount)
        else none)).map (fun p => p.1))
      = cats.filterMap (fun c =>
          if c.include_flag then some c.category_name else none) := by
  induction cats with
  | nil => rfl
  | cons c cats ih =>
      by_cases h : c.include_flag = true
      · simp only [List.filterMap_cons, h, if_true, List.map_cons]
        rw [ih]
      · rw [Bool.not_eq_true] at h
        simp only [List.filterMap_cons, h, Bool.false_eq_true, if_false]
        exact ih

/-- C9: the budget processor never reads a category's end_month.
Reassigning every category's end_month arbitrarily changes neither any
month's returned total nor any later one; each month's total is exactly
the sum of the current amounts; the current-amount dict holds one entry
per included category forever (keys are preserved by every step), so an
included category's inflated and reduced amount keeps being counted in
every processed month, including months strictly after its end_month. -/
theorem C9_budget_ignores_end_month (s : BudgetSettings)
    (f : BudgetCategory → Option Ym) (people : List Person)
    (months : List (Ym × ℤ)) :
    (budget_run people (init_budget_state (set_end_months s f)) months).1
      = (budget_run people (init_budget_state s) months).1 ∧
    (∀ (st : BudgetState) (ym : Ym) (mn : ℤ),
      (budget_process_month people st ym mn).1
        = (((budget_process_month people st ym mn).2).current_amounts.map
            (fun p => p.2)).sum ∧
      ((budget_process_month people st ym mn).2).current_amounts.map (fun p => p.1)
        = st.current_amounts.map (fun p => p.1)) ∧
    ((budget_run people (init_budget_state s) months).2).current_amounts.map
        (fun p => p.1)
      = s.categories.filterMap (fun c =>
          if c.include_flag then some c.category_name else none) ∧
    (∀ c ∈ s.categories, c.include_flag = true →
      c.category_name ∈
        ((budget_run people (init_budget_state s) months).2).current_amounts.map
          (fun p => p.1)) := by
  have hinitkeys : (init_budget_state s).current_amounts.map (fun p => p.1)
      = s.categories.filterMap (fun c =>
          if c.include_flag then some c.category_name else none) := by
    unfold init_budget_state
    exact init_budget_keys s.categories
  have hrunkeys : ((budget_run people (init_budget_state s) months).2).current_amounts.map
      (fun p => p.1)
      = s.categories.filterMap (fun c =>
          if c.include_flag then some c.category_name else none) := by
    rw [budget_run_keys, hinitkeys]
  refine ⟨?_, ?_, hrunkeys, ?_⟩
  · have hinit : init_budget_state (set_end_months s f)
        = state_set_end_months f (init_budget_state s) := by
      unfold init_budget_state state_set_end_months set_end_months
      dsimp only
      congr 1
      rw [List.filterMap_map]
      rfl
    rw [hinit, budget_run_set_end]
  · intro st ym mn
    exact ⟨rfl, budget_process_keys people st ym mn⟩
  · intro c hc hinc
    rw [hrunkeys]
    exact List.mem_filterMap.mpr ⟨c, hc, by rw [if_pos hinc]⟩

/-- Witness for C9: a one-category budget whose category ended in 2020 is
still fully counted in a 2026 month. -/
theorem C9_budget_ignores_end_month_witness :
    "Housing" ∈ ((budget_run [] (init_budget_state
        { categories := [{ category_name := "Housing"
                           category_type := CategoryType.fixed
                           monthly_amount := 2500
                           include_flag := true
                           main_category := "Housing"
                           end_month := some { year := 2020, month := 1 } }]
          inflation_annual_percent := 0
          survivor_flexible_reduction_percent := 0
          survivor_reduction_mode := SurvivorReductionMode.flex_only })
        [({ year := 2026, month := 3 }, 3)]).2).current_amounts.map (fun p => p.1) :=
  (C9_budget_ignores_end_month _ (fun _ => none) [] _).2.2.2 _
    (List.mem_singleton_self _) rfl

/-- C10: calculate_net_income_projections errors exactly when the
projection and spending lists differ in length, and otherwise returns one
net-income projection per month with nothing truncated or padded;
get_financial_summary returns the empty record on an empty list rather
than raising, and a populated record on any non-empty list. -/
theorem C10_net_income_contract :
    (∀ (mps : List MonthlyProjection) (ts : List TaxSummary) (spend : List ℚ),
      mps.length ≠ spend.length →
        calculate_net_income_projections mps ts spend
          = Except.error "Mismatch between monthly projections and spending amounts") ∧
    (∀ (mps : List MonthlyProjection) (ts : List TaxSummary) (spend : List ℚ),
      mps.length = spend.length →
        calculate_net_income_projections mps ts spend
            = Except.ok (List.zipWith (create_projection ts) mps spend) ∧
        (List.zipWith (create_projection ts) mps spend).length = mps.length) ∧
    get_financial_summary [] = none ∧
    (∀ nips : List NetIncomeProjection, nips ≠ [] →
      ∃ fs, get_financial_summary nips = some fs) := by
  refine ⟨?_, ?_, rfl, ?_⟩
  · intro mps ts spend h
    rw [calculate_net_income_projections, if_pos h]
  · intro mps ts spend h
    constructor
    · rw [calculate_net_income_projections, if_neg (not_not_intro h)]
    · rw [List.length_zipWith, h, min_self]
  · intro nips h
    unfold get_financial_summary
    rw [if_neg (by rw [List.isEmpty_iff]; exact h)]
    exact ⟨_, rfl⟩

/-- Witness for C10: a one-month input with matching lengths succeeds
with one output month; the two-against-one mismatch errors; a singleton
summary input is non-empty. -/
theorem C10_net_income_contract_witness :
    calculate_net_income_projections [example_monthly_projection] [] [5200]
        = Except.ok (List.zipWith (create_projection [])
            [example_monthly_projection] [5200]) ∧
    calculate_net_income_projections [example_monthly_projection] [] [5200, 100]
        = Except.error "Mismatch between monthly projections and spending amounts" ∧
    (∃ fs, get_financial_summary [example_net_income_projection] = some fs) := by
  refine ⟨(C10_net_income_contract.2.1 [example_monthly_projection] [] [5200] rfl).1,
    C10_net_income_contract.1 [example_monthly_projection] [] [5200, 100] (by norm_num),
    C10_net_income_contract.2.2.2 [example_net_income_projection] (by simp)⟩
